import Mathlib

/-!
Verification development for the hass-autonomic integration
(src/custom_components/autonomic/controller.py and
src/custom_components/autonomic/media_player.py).

The Python code is shallowly embedded below: the controller state is an
explicit structure, the event store is an association list with Python
dict semantics, and the frame handlers are pure state-transition
functions.  String operations used by the code (str.replace, int(),
str.startswith, str.strip, str.split) are modelled as executable
functions over the character lists of Lean strings, matching CPython
semantics on the inputs the code can see.  Exceptions are modelled by an
explicit error flag carried in each handler result (mutations performed
before the raise are kept, as in Python).
-/

namespace Autonomic

/-- Values that the controller ever stores in its `_events` dict:
strings (raw event values), booleans (SmartSource flag), Python `None`,
lists of strings (SourceList) and utcnow timestamps (TrackTimeUtc,
modelled as an abstract tick count). -/
inductive EvValue where
  | str (s : String)
  | bool (b : Bool)
  | null
  | strList (l : List String)
  | time (t : Nat)
deriving DecidableEq, Repr

/-- The `_events` dict of the controller: a mapping from composite
string keys to values, modelled as an association list without
duplicate keys. -/
abbrev EventStore := List (String × EvValue)

/-- Dict assignment `self._events[k] = v`: overwrite in place or append. -/
def setk : EventStore → String → EvValue → EventStore
  | [], k, v => [(k, v)]
  | (k', v') :: rest, k, v =>
      if k' = k then (k, v) :: rest else (k', v') :: setk rest k v

/-- Dict lookup `self._events[k]` as an option. -/
def getk : EventStore → String → Option EvValue
  | [], _ => none
  | (k', v) :: rest, k => if k' = k then some v else getk rest k

/-- Python `k in self._events`. -/
def hasKey (st : EventStore) (k : String) : Bool :=
  (getk st k).isSome

/-- Python `self._events.pop(k, None)`, keeping only the resulting dict. -/
def popk : EventStore → String → EventStore
  | [], _ => []
  | (k', v) :: rest, k => if k' = k then rest else (k', v) :: popk rest k

/- ---------------------------------------------------------------------
Models of the CPython string operations used by the controller.
--------------------------------------------------------------------- -/

/-- Python `p == s[:len(p)]`, i.e. `s.startswith(p)`. -/
def textStartsWith (s p : String) : Bool :=
  p.data.isPrefixOf s.data

/-- Python `s.strip()` (default whitespace strip on both ends). -/
def pyStrip (s : String) : String :=
  ⟨((s.data.dropWhile Char.isWhitespace).reverse.dropWhile Char.isWhitespace).reverse⟩

/-- Left-to-right non-overlapping replacement on character lists, the
core of Python `str.replace`; the fuel argument is instantiated with the
length of the subject so it never runs out (every step consumes at least
one character). -/
def replAux (pat rep : List Char) : Nat → List Char → List Char
  | _, [] => []
  | 0, l => l
  | fuel + 1, c :: cs =>
      if pat.isPrefixOf (c :: cs) then
        rep ++ replAux pat rep fuel ((c :: cs).drop (max pat.length 1))
      else
        c :: replAux pat rep fuel cs

/-- Python `s.replace(pat, rep)` for a non-empty pattern (the pattern is
never empty in the embedded code). -/
def pyReplace (s pat rep : String) : String :=
  if pat.data.isEmpty then s else ⟨replAux pat.data rep.data s.data.length s.data⟩

/-- Code-point comparison of character lists: the Python `<=` on strings
used implicitly by `list.sort()` of entity ids. -/
def strLeb : List Char → List Char → Bool
  | [], _ => true
  | _ :: _, [] => false
  | a :: as, b :: bs => if a = b then strLeb as bs else decide (a < b)

/-- Python string `<=` as a decidable relation on Lean strings. -/
def sLe (a b : String) : Prop :=
  strLeb a.data b.data = true

instance : DecidableRel sLe := fun a b => by
  unfold sLe
  infer_instance

/-- Python `list.sort()` on a list of entity-id strings.  The embedded
call sites sort de-duplicated lists, so any correct comparison sort has
exactly the CPython result; insertion sort keeps the definition
structurally recursive. -/
def pySort (l : List String) : List String :=
  List.insertionSort sLe l

/-- Numeric value of a decimal digit. -/
def digVal (c : Char) : Option Nat :=
  if c.isDigit then some (c.toNat - '0'.toNat) else none

/-- Parse a non-empty all-digit character list as a natural number. -/
def parseNat : List Char → Option Nat
  | [] => none
  | l => l.foldl (fun acc c => match acc, digVal c with
      | some a, some d => some (a * 10 + d)
      | _, _ => none) (some 0)

/-- Python `int(s)` on the decimal strings the device emits (optionally
negative); returns `none` where CPython raises `ValueError`. -/
def pyToInt (s : String) : Option Int :=
  match s.data with
  | '-' :: rest => (parseNat rest).map (fun n => -(n : Int))
  | l => (parseNat l).map (fun n => (n : Int))

/-- Python `s.split(sep)[0]` for a one-character separator: everything
before the first occurrence of the separator. -/
def pySplitHead (s : String) (sep : Char) : String :=
  ⟨s.data.takeWhile (fun c => c ≠ sep)⟩

/-- Python `s.replace(a, b)` for single characters. -/
def chMap (s : String) (a b : Char) : String :=
  ⟨s.data.map (fun c => if c = a then b else c)⟩

/- ---------------------------------------------------------------------
Controller data model.
--------------------------------------------------------------------- -/

/-- Operating mode of the device (`MODE_UNKNOWN`, `MODE_STANDALONE`,
`MODE_MRAD` in const.py). -/
inductive Mode where
  | unknown
  | standalone
  | mrad
deriving DecidableEq, Repr

/-- The mutable state of one `MmsZone` media-player entity
(media_player.py) that the controller handlers touch. -/
structure MmsZone where
  entity_id : String
  mms_zone_id : Option String
  mms_source_id : String
  name : String
  groupGuid : String
  groupName : String
  group_members : List String
  isOn : Bool
deriving DecidableEq, Repr

/-- The mutable controller state (controller.py) that the embedded
handlers read and write.  `zoneEntitiesByGuid` maps a device GUID to the
index of the bound placeholder inside `zoneEntities`, modelling the
Python dict of object references. -/
structure Ctrl where
  mode : Mode
  is_connected : Bool
  perform_group_volumes : Bool
  zoneEntities : List MmsZone
  zoneEntitiesByGuid : List (String × Nat)
  events : EventStore
deriving DecidableEq, Repr

/-- `MmsZone.set_name_source_and_group` (media_player.py lines 145-177);
the registry-hiding branch and the `update_ha` notification have no
effect on the embedded state. -/
def set_name_source_and_group (z : MmsZone)
    (newName newSourceId newGroupGuid newGroupName : Option String)
    (newGroupMembers : Option (List String)) : MmsZone :=
  let z1 := match newName with
    | some nn => if nn ≠ z.name then { z with name := nn } else z
    | none => z
  let z2 := match newSourceId with
    | some ns => if ns ≠ z1.mms_source_id then { z1 with mms_source_id := ns } else z1
    | none => z1
  let z3 := match newGroupGuid with
    | some g => { z2 with groupGuid := g }
    | none => z2
  let z4 := match newGroupName with
    | some g => { z3 with groupName := g }
    | none => z3
  match newGroupMembers with
  | some gm => if z4.group_members ≠ gm then { z4 with group_members := gm } else z4
  | none => z4

/-- `Controller.get_event` (controller.py lines 248-253): a missing key
returns Python `None`, a present key returns the stored value (which can
itself be the `None` sentinel). -/
def get_event (c : Ctrl) (entityId eventName : String) : EvValue :=
  match getk c.events (entityId ++ "." ++ eventName) with
  | none => EvValue.null
  | some v => v

/- ---------------------------------------------------------------------
Telemetry event handlers (`_process_mrad_event`, `_process_instance_event`).
--------------------------------------------------------------------- -/

/-- Result of running one embedded handler: the updated event store, the
entity ids whose `update_ha` was scheduled, the commands sent and an
error flag recording a raised exception (state mutated before the raise
is kept, as in Python). -/
structure EvRes where
  events : EventStore
  refreshed : List String
  cmds : List String
  err : Bool
deriving DecidableEq, Repr

/-- The `00:00:00` to `0` normalization applied to TrackTime values. -/
def normTT (v : String) : String :=
  pyReplace v "00:00:00" "0"

/-- Refresh fan-out shared by `_process_mrad_event` and the standalone
branch of `_process_instance_event`: every zone whose static zone id or
bound source id equals the event entity id. -/
def refreshByZoneOrSource (zones : List MmsZone) (entityId : String) : List String :=
  (zones.filter (fun z =>
      z.mms_zone_id == some entityId || z.mms_source_id == entityId)).map (·.entity_id)

/-- The `TrackTime` companion writes (controller.py lines 435-448 /
477-490): store the normalized value, then manufacture `TrackTimeUtc`
and `SmartSource`. -/
def trackTimeStore (st : EventStore) (entityId ev : String) (now : Nat) : EventStore :=
  setk (setk (setk st (entityId ++ "." ++ "TrackTime") (.str ev))
      (entityId ++ "." ++ "TrackTimeUtc") (.time now))
    (entityId ++ "." ++ "SmartSource") (.bool true)

/-- `Controller._process_mrad_event` (controller.py lines 416-455) after
the `MRAD.Verb entityId eventName=value` split, with the tick threshold
`T` and tick interval `I` as parameters (they come from const.py). -/
def process_mrad_event (T I : Int) (now : Nat) (c : Ctrl)
    (entityId eventName eventValue : String) : EvRes :=
  let key := entityId ++ "." ++ eventName
  if eventName = "TrackTime" then
    let ev := normTT eventValue
    let cont : EvRes :=
      ⟨trackTimeStore c.events entityId ev now,
        refreshByZoneOrSource c.zoneEntities entityId, [], false⟩
    if hasKey c.events key then
      match pyToInt ev with
      | none => ⟨c.events, [], [], true⟩
      | some n =>
          if n > T then
            if I = 0 then ⟨c.events, [], [], true⟩
            else if Int.fmod n I ≠ 0 then ⟨c.events, [], [], false⟩
            else cont
          else cont
    else cont
  else
    ⟨setk c.events key (.str eventValue),
      refreshByZoneOrSource c.zoneEntities entityId, [], false⟩

/-- The MRAD-mode refresh fan-out of `_process_instance_event`
(controller.py lines 505-515): a zone is refreshed when its bound source
id equals the event entity id, or when the `QualifiedSourceName` event
of its bound source equals the entity id. -/
def refreshInstanceMrad (st : EventStore) (zones : List MmsZone)
    (entityId : String) : List String :=
  (zones.filter (fun z =>
      z.mms_source_id == entityId ||
      (match getk st (z.mms_source_id ++ "." ++ "QualifiedSourceName") with
       | some (.str v) => v == entityId
       | _ => false))).map (·.entity_id)

/-- `Controller._process_instance_event` (controller.py lines 457-515)
after the `ReportState entityId eventName=value` split. -/
def process_instance_event (T I : Int) (now : Nat) (c : Ctrl)
    (entityId eventName eventValue : String) : EvRes :=
  let key := entityId ++ "." ++ eventName
  let stored : EventStore × Bool :=
    if eventName = "TrackTime" then
      (trackTimeStore c.events entityId (normTT eventValue) now, true)
    else
      (setk c.events key (.str eventValue), false)
  let finish : EvRes :=
    if c.mode = .standalone then
      if eventName = "MediaArtChanged" then
        ⟨stored.1, [], ["BrowseInstances"], false⟩
      else
        ⟨stored.1, refreshByZoneOrSource c.zoneEntities entityId, [], false⟩
    else
      ⟨stored.1, refreshInstanceMrad stored.1 c.zoneEntities entityId, [], false⟩
  if eventName = "TrackTime" then
    let ev := normTT eventValue
    if hasKey c.events key then
      match pyToInt ev with
      | none => ⟨c.events, [], [], true⟩
      | some n =>
          if n > T then
            if I = 0 then ⟨c.events, [], [], true⟩
            else if Int.fmod n I ≠ 0 then ⟨c.events, [], [], false⟩
            else finish
          else finish
    else finish
  else finish

/- ---------------------------------------------------------------------
Zone-group snapshot processing: the empty-art reset branch
(controller.py lines 345-359).
--------------------------------------------------------------------- -/

/-- The empty source-art branch of
`Controller._process_mrad_zone_group_response` (controller.py lines
345-355): the dependent metadata keys of the group source are reset to
the `None` sentinel and `SmartSource` to `False`, in source order. -/
def emptyArtReset (st : EventStore) (sourceId : String) : EventStore :=
  setk (setk (setk (setk (setk (setk (setk (setk (setk (setk st
    (sourceId ++ "." ++ "mArt") .null)
    (sourceId ++ "." ++ "MetaData1") .null)
    (sourceId ++ "." ++ "MetaData2") .null)
    (sourceId ++ "." ++ "MetaData3") .null)
    (sourceId ++ "." ++ "MetaData4") .null)
    (sourceId ++ "." ++ "TrackDuration") .null)
    (sourceId ++ "." ++ "TrackTime") .null)
    (sourceId ++ "." ++ "TrackTimeUtc") .null)
    (sourceId ++ "." ++ "Shuffle") .null)
    (sourceId ++ "." ++ "SmartSource") (.bool false)

/-- The non-empty art branch (controller.py lines 357-359). -/
def nonEmptyArtSet (st : EventStore) (sourceId mArt : String) : EventStore :=
  setk (setk st (sourceId ++ "." ++ "mArt") (.str mArt))
    (sourceId ++ "." ++ "SmartSource") (.bool true)

/- ---------------------------------------------------------------------
Session lifecycle: `Controller.mms_connected` (controller.py lines
133-167), modelled as the trace of state actions and sends it performs,
in program order.
--------------------------------------------------------------------- -/

/-- One observable action of `mms_connected`. -/
inductive Act where
  | setConn (b : Bool)
  | updSwitches
  | clearEvents
  | send (cmd : String)
deriving DecidableEq, Repr

/-- `Controller.mms_connected(mms, connected_flag)` for a connection
whose instance name is `inst` (`"*"` is the primary connection): the
ordered trace of actions the method performs. -/
def mms_connected (inst : String) (flag : Bool) (mode : Mode) : List Act :=
  [Act.setConn flag, Act.updSwitches] ++
  (if inst = "*" then [Act.clearEvents] else []) ++
  (if flag then
    [Act.send "setclienttype hass", Act.send "setxmlmode lists"] ++
    (if inst = "*" then
      (if mode = Mode.standalone then
        [Act.send "browseinstances"]
      else
        [Act.send "mrad.subscribeevents", Act.send "mrad.getstatus",
         Act.send "browseinstances", Act.send "mrad.browseallzones",
         Act.send "mrad.browsezonegroups"])
    else
      [Act.send ("setinstance " ++ inst), Act.send "subscribeevents",
       Act.send "getstatus"])
  else [])

/- ---------------------------------------------------------------------
The effective `available` property of `MmsZone` (media_player.py).
--------------------------------------------------------------------- -/

/-- The first `available` property definition (media_player.py lines
250-253), which returns the controller connection state.  It is
shadowed: Python keeps only the last definition of a class attribute. -/
def available_shadowed (c : Ctrl) : Bool :=
  c.is_connected

/-- The effective `available` property (media_player.py lines 288-291):
the second definition of the same name in the class body, which returns
`True` unconditionally and therefore wins. -/
def available (_c : Ctrl) : Bool :=
  true

/- ---------------------------------------------------------------------
Zone snapshot reconciliation
(`Controller._process_mrad_zone_response`, controller.py lines 260-305).
--------------------------------------------------------------------- -/

/-- The linear placeholder scan
`for zone in self._zoneEntities: if zone._mms_zone_id == id: ... break`,
returning the index of the first placeholder whose static zone id
matches. -/
def scanFor : List MmsZone → String → Option Nat
  | [], _ => none
  | z :: rest, eid =>
      if z.mms_zone_id == some eid then some 0
      else (scanFor rest eid).map (· + 1)

/-- In-place mutation of the placeholder object at index `i`, modelling
assignment through a Python object reference. -/
def updAt (l : List MmsZone) (i : Nat) (f : MmsZone → MmsZone) : List MmsZone :=
  match l[i]? with
  | some z => l.set i (f z)
  | none => l

/-- One parsed `<Zone .../>` element of a `<Zones>` snapshot. -/
structure ZoneElem where
  guid : String
  name : String
  sourceId : String
  id : String
deriving DecidableEq, Repr

/-- The per-zone update performed by both branches of the zone snapshot
handler: refresh the display name and the bound source id. -/
def zoneUpd (e : ZoneElem) (z : MmsZone) : MmsZone :=
  set_name_source_and_group z (some e.name) (some ("Source_" ++ e.sourceId))
    none none none

/-- The body of the zone snapshot loop (controller.py lines 287-305):
resolve through the GUID binding first, otherwise scan by static zone id
and bind on a match; unmatched zones are informational only. -/
def process_mrad_zone_elem (c : Ctrl) (e : ZoneElem) : Ctrl :=
  match c.zoneEntitiesByGuid.lookup e.guid with
  | some i => { c with zoneEntities := updAt c.zoneEntities i (zoneUpd e) }
  | none =>
      match scanFor c.zoneEntities e.id with
      | some i =>
          { c with
            zoneEntities := updAt c.zoneEntities i (zoneUpd e),
            zoneEntitiesByGuid := (e.guid, i) :: c.zoneEntitiesByGuid }
      | none => c

/-- `Controller._process_mrad_zone_response` after XML parsing: fold the
loop body over the reported zone elements. -/
def process_mrad_zone_response (c : Ctrl) (es : List ZoneElem) : Ctrl :=
  es.foldl process_mrad_zone_elem c

/- ---------------------------------------------------------------------
Closed-form characterization of the zone snapshot fold, used to settle
the idempotence property: the GUID-binding map evolves independently of
the placeholder mutations (the scan only reads immutable static zone
ids), and each placeholder ends up reflecting the last zone element
that resolves to it.
--------------------------------------------------------------------- -/

/-- The evolution of the GUID-binding map alone under one zone element,
with the (static) id scan abstracted as `σ`. -/
def mstep (σ : String → Option Nat) (m : List (String × Nat)) (e : ZoneElem) :
    List (String × Nat) :=
  match m.lookup e.guid with
  | some _ => m
  | none =>
      match σ e.id with
      | some i => (e.guid, i) :: m
      | none => m

/-- The GUID-binding map after a whole snapshot. -/
def mfold (σ : String → Option Nat) (m : List (String × Nat))
    (es : List ZoneElem) : List (String × Nat) :=
  es.foldl (mstep σ) m

/-- The last zone element of the snapshot that resolves to placeholder
index `i` under the final binding map `M`. -/
def lastA (M : List (String × Nat)) (es : List ZoneElem) (i : Nat) :
    Option ZoneElem :=
  (es.filter (fun e => M.lookup e.guid == some i)).getLast?

/-- The net effect of the snapshot on the placeholder at index `i`. -/
def applyLast (M : List (String × Nat)) (es : List ZoneElem) (i : Nat)
    (z : MmsZone) : MmsZone :=
  match lastA M es i with
  | some e => zoneUpd e z
  | none => z

/-- Result of one embedded frame handler: the controller state after the
handler ran (kept even when it raised, as mutations before a Python
raise persist), the commands it sent, and whether it raised. -/
structure HRes where
  state : Ctrl
  cmds : List String
  err : Bool
deriving DecidableEq, Repr

/- ---------------------------------------------------------------------
Zone-group snapshot reconciliation
(`Controller._process_mrad_zone_group_response`, controller.py lines
307-414).
--------------------------------------------------------------------- -/

/-- How xmltodict presents repeated child elements that are not listed
in `force_list`: a lone child parses as a single mapping, several
children parse as a list.  Only `ZoneGroup` is force-listed by the
code. -/
inductive XmlNodes (α : Type) where
  | one (a : α)
  | many (l : List α)
deriving DecidableEq, Repr

/-- One parsed `<zone .../>` element of the merged `<vol>` membership
list of a zone group. -/
structure ZGZone where
  eventId : String
  guid : String
  name : String
deriving DecidableEq, Repr

/-- One parsed `<Source .../>` element (`@name` defaults to the empty
string through `.get`). -/
structure ZGSource where
  name : String
  fqn : String
  sId : String
deriving DecidableEq, Repr

/-- One parsed `<ZoneGroup>` element, with the `<vol>`/`<src>` kludge of
the handler already applied so `volZones` is the merged membership
list.  `guid`, `name` default to `""` and `sId` to `"0"` through
`.get`. -/
structure ZoneGroup where
  guid : String
  name : String
  sId : String
  mArt : String
  sources : XmlNodes ZGSource
  volZones : XmlNodes ZGZone
deriving DecidableEq, Repr

/-- The source loop body (controller.py lines 370-381): compute the
friendly source name, accumulate it, and store the
`QualifiedSourceName` event of the source. -/
def qsnStep (acc : List String × EventStore) (s : ZGSource) : List String × EventStore :=
  let fqn0 := s.name
  let fqn := if fqn0 = "" then chMap (pySplitHead s.fqn '@') '_' ' ' else fqn0
  (acc.1 ++ [fqn],
   setk acc.2 ("Source_" ++ s.sId ++ "." ++ "QualifiedSourceName")
     (.str (chMap fqn ' ' '_')))

/-- The `vol` zone loop body (controller.py lines 384-410): store the
group source list for the zone, resolve or create its GUID binding,
assign name, source, and group identity, and accumulate it into the
de-duplicated membership lists. -/
def volZoneStep (g : ZoneGroup) (sources : List String)
    (acc : Ctrl × List Nat × List String) (z : ZGZone) :
    Ctrl × List Nat × List String :=
  let c0 := acc.1
  let mIdx := acc.2.1
  let mIds := acc.2.2
  let sourceId := "Source_" ++ g.sId
  let c := { c0 with
    events := setk c0.events (z.eventId ++ "." ++ "SourceList") (.strList sources) }
  let upd := fun zz => set_name_source_and_group zz (some z.name) (some sourceId)
      (some g.guid) (some g.name) none
  match c.zoneEntitiesByGuid.lookup z.guid with
  | some i =>
      let c2 := { c with zoneEntities := updAt c.zoneEntities i upd }
      match c.zoneEntities[i]? with
      | some found =>
          if found.entity_id ∈ mIds then (c2, mIdx, mIds)
          else (c2, mIdx ++ [i], mIds ++ [found.entity_id])
      | none => (c2, mIdx, mIds)
  | none =>
      match scanFor c.zoneEntities z.eventId with
      | some i =>
          let c2 := { c with
            zoneEntities := updAt c.zoneEntities i upd,
            zoneEntitiesByGuid := (z.guid, i) :: c.zoneEntitiesByGuid }
          match c.zoneEntities[i]? with
          | some found =>
              if found.entity_id ∈ mIds then (c2, mIdx, mIds)
              else (c2, mIdx ++ [i], mIds ++ [found.entity_id])
          | none => (c2, mIdx, mIds)
      | none => (c, mIdx, mIds)

/-- Result of processing one `<ZoneGroup>` element: the state, the
member placeholder indices, the sorted member entity-id list that was
written, and the raised-exception flag. -/
structure GRes where
  state : Ctrl
  memberIdx : List Nat
  memberIds : List String
  err : Bool
deriving Repr

/-- Processing of one `<ZoneGroup>` element (controller.py lines
336-414).  When the `<vol>` membership list holds exactly one `<zone>`
element, xmltodict presents it as a mapping, so `for vZone in
group['vol']['zone']` iterates the attribute-name strings and
`vZone['@name']` raises `TypeError` before any zone is stored, bound,
or accumulated; state written before the loop (art branch and
`QualifiedSourceName` events) persists. -/
def process_zone_group (c : Ctrl) (g : ZoneGroup) : GRes :=
  let sourceId := "Source_" ++ g.sId
  let ev0 := if g.mArt = "" then emptyArtReset c.events sourceId
             else nonEmptyArtSet c.events sourceId g.mArt
  let sourcesList := match g.sources with
    | .one s => [s]
    | .many l => l
  let sacc := sourcesList.foldl qsnStep ([], ev0)
  let c1 := { c with events := sacc.2 }
  match g.volZones with
  | .one _ => ⟨c1, [], [], true⟩
  | .many zs =>
      let res := zs.foldl (volZoneStep g sacc.1) (c1, [], [])
      let sorted := pySort res.2.2
      let c3 := { res.1 with
        zoneEntities := res.2.1.foldl
          (fun l i => updAt l i
            (fun zz => set_name_source_and_group zz none none none none (some sorted)))
          res.1.zoneEntities }
      ⟨c3, res.2.1, sorted, false⟩

/-- `Controller._process_mrad_zone_group_response` after XML parsing:
process the groups in order; an exception aborts the remaining groups
and propagates to the dispatcher. -/
def process_mrad_zone_group_response (c : Ctrl) (gs : List ZoneGroup) : HRes :=
  gs.foldl
    (fun r g =>
      if r.err then r
      else
        let res := process_zone_group r.state g
        ⟨res.state, [], res.err⟩)
    ⟨c, [], false⟩

/- ---------------------------------------------------------------------
Frame classifier and dispatcher
(`Controller.async_mms_process_response`, controller.py lines 169-196).
--------------------------------------------------------------------- -/

/-- The five frame handlers the dispatcher routes to, as functions of
the decoded frame text and the current state. -/
structure HandlerSet where
  onZones : String → Ctrl → HRes
  onZoneGroups : String → Ctrl → HRes
  onMradEvent : String → Ctrl → HRes
  onInstances : String → Ctrl → HRes
  onInstanceEvent : String → Ctrl → HRes

/-- The `except` block of `async_mms_process_response`: a raised
exception is caught, logged, and answered by sending `quit`; it is never
propagated. -/
def handleResult (r : HRes) : Ctrl × List String :=
  if r.err then (r.state, r.cmds ++ ["quit"]) else (r.state, r.cmds)

/-- The `startswith` prefix chain of `async_mms_process_response`
(controller.py lines 177-186), routing on the already-stripped frame. -/
def dispatchInner (hs : HandlerSet) (c : Ctrl) (s : String) : HRes :=
  if textStartsWith s "<Zones" then hs.onZones s c
  else if textStartsWith s "<ZoneGroups" then hs.onZoneGroups s c
  else if textStartsWith s "MRAD." then hs.onMradEvent s c
  else if textStartsWith s "<Instances" then hs.onInstances s c
  else if textStartsWith s "ReportState" || textStartsWith s "StateChanged" then
    hs.onInstanceEvent s c
  else ⟨c, [], false⟩

/-- `Controller.async_mms_process_response`: strip the decoded frame,
route it, and apply the catch-all exception handling. -/
def async_mms_process_response (hs : HandlerSet) (c : Ctrl) (raw : String) :
    Ctrl × List String :=
  handleResult (dispatchInner hs c (pyStrip raw))

/-- True when the stripped frame matches one of the five fixed handler
prefixes. -/
def matchedPrefix (s : String) : Bool :=
  textStartsWith s "<Zones" || textStartsWith s "<ZoneGroups" ||
  textStartsWith s "MRAD." || textStartsWith s "<Instances" ||
  textStartsWith s "ReportState" || textStartsWith s "StateChanged"

/- ---------------------------------------------------------------------
Consumer command paths (media_player.py): each method modelled as the
ordered list of protocol commands it sends.  Numeric command arguments
computed through float arithmetic (volume scaling, seek position) are
abstracted as already-computed integer parameters; they only affect the
digits inside a command, never its leading verb.
--------------------------------------------------------------------- -/

/-- Python f-string rendering of the optional static zone id (`None`
prints as the string `None`). -/
def ostr : Option String → String
  | some s => s
  | none => "None"

/-- `MmsZone.select_source` (media_player.py lines 606-610): amplifier
mode selects the zone then the source; standalone mode sends nothing. -/
def select_source_cmds (c : Ctrl) (z : MmsZone) (source : String) : List String :=
  if c.mode = Mode.mrad then
    ["mrad.SetZone \"" ++ (ostr z.mms_zone_id ++ "\""),
     "mrad.SetSource \"" ++ (source ++ "\"")]
  else []

/-- `MmsZone.turn_on` (lines 612-615). -/
def turn_on_cmds (c : Ctrl) (z : MmsZone) : List String :=
  if c.mode = Mode.mrad then
    ["mrad.power on \"" ++ (ostr z.mms_zone_id ++ "\"")]
  else []

/-- `MmsZone.turn_off` (lines 617-620). -/
def turn_off_cmds (c : Ctrl) (z : MmsZone) : List String :=
  if c.mode = Mode.mrad then
    ["mrad.power off \"" ++ (ostr z.mms_zone_id ++ "\"")]
  else []

/-- `MmsZone.set_repeat` (lines 622-634); `offOrOne` is true when the
requested mode is `OFF` or `ONE`. -/
def set_repeat_cmds (c : Ctrl) (z : MmsZone) (offOrOne : Bool) : List String :=
  let arg := if offOrOne then "False" else "True"
  if c.mode = Mode.mrad then
    ["mrad.SetZone \"" ++ (ostr z.mms_zone_id ++ "\""), "mrad.Repeat " ++ arg]
  else
    ["setInstance \"" ++ (z.mms_source_id ++ "\""), "Repeat " ++ arg]

/-- `MmsZone.set_shuffle` (lines 636-644). -/
def set_shuffle_cmds (c : Ctrl) (z : MmsZone) (sh : Bool) : List String :=
  let arg := if sh then "True" else "False"
  if c.mode = Mode.mrad then
    ["mrad.SetZone \"" ++ (ostr z.mms_zone_id ++ "\""), "mrad.Shuffle " ++ arg]
  else
    ["setInstance \"" ++ (z.mms_source_id ++ "\""), "Shuffle " ++ arg]

/-- `MmsZone.mute_volume` (lines 646-661). -/
def mute_volume_cmds (c : Ctrl) (z : MmsZone) (mute : Bool) : List String :=
  let st := if mute then "on" else "off"
  if c.mode = Mode.mrad then
    if c.perform_group_volumes then
      ["mrad.mute " ++ (st ++ (" \"" ++ (z.groupGuid ++ "\"")))]
    else
      ["mrad.SetZone \"" ++ (ostr z.mms_zone_id ++ "\""), "mrad.mute " ++ st]
  else
    ["setInstance \"" ++ (z.mms_source_id ++ "\""), "mute " ++ st]

/-- `MmsZone.set_volume_level` (lines 663-687); `vol` is the already
scaled integer volume. -/
def set_volume_level_cmds (c : Ctrl) (z : MmsZone) (vol : Int) : List String :=
  if c.mode = Mode.mrad then
    if c.perform_group_volumes then
      ["mrad.volume " ++ (toString vol ++ (" \"" ++ (z.groupGuid ++ "\"")))]
    else
      ["mrad.SetZone \"" ++ (ostr z.mms_zone_id ++ "\""),
       "mrad.volume " ++ toString vol]
  else
    if get_event c (ostr z.mms_zone_id) "GainMode" = .str "Fixed" then []
    else
      ["setInstance \"" ++ (z.mms_source_id ++ "\""), "SetVolume " ++ toString vol]

/-- `MmsZone.async_volume_up` (lines 689-703). -/
def volume_up_cmds (c : Ctrl) (z : MmsZone) : List String :=
  if c.mode = Mode.mrad then
    if c.perform_group_volumes then
      ["mrad.VolumeUp \"" ++ (z.groupGuid ++ "\"")]
    else
      ["mrad.SetZone \"" ++ (ostr z.mms_zone_id ++ "\""), "mrad.VolumeUp"]
  else
    if get_event c (ostr z.mms_zone_id) "GainMode" = .str "Fixed" then []
    else
      ["setInstance \"" ++ (z.mms_source_id ++ "\""), "VolumeUp"]

/-- `MmsZone.async_volume_down` (lines 705-719). -/
def volume_down_cmds (c : Ctrl) (z : MmsZone) : List String :=
  if c.mode = Mode.mrad then
    if c.perform_group_volumes then
      ["mrad.VolumeDown \"" ++ (z.groupGuid ++ "\"")]
    else
      ["mrad.SetZone \"" ++ (ostr z.mms_zone_id ++ "\""), "mrad.VolumeDown"]
  else
    if get_event c (ostr z.mms_zone_id) "GainMode" = .str "Fixed" then []
    else
      ["setInstance \"" ++ (z.mms_source_id ++ "\""), "VolumeDown"]

/-- `MmsZone.media_play` (lines 721-728). -/
def media_play_cmds (c : Ctrl) (z : MmsZone) : List String :=
  if c.mode = Mode.mrad then
    ["mrad.SetZone \"" ++ (ostr z.mms_zone_id ++ "\""), "mrad.play"]
  else
    ["setInstance \"" ++ (z.mms_source_id ++ "\""), "play"]

/-- `MmsZone.media_pause` (lines 730-737). -/
def media_pause_cmds (c : Ctrl) (z : MmsZone) : List String :=
  if c.mode = Mode.mrad then
    ["mrad.SetZone \"" ++ (ostr z.mms_zone_id ++ "\""), "mrad.pause"]
  else
    ["setInstance \"" ++ (z.mms_source_id ++ "\""), "pause"]

/-- `MmsZone.media_stop` (lines 739-746). -/
def media_stop_cmds (c : Ctrl) (z : MmsZone) : List String :=
  if c.mode = Mode.mrad then
    ["mrad.SetZone \"" ++ (ostr z.mms_zone_id ++ "\""), "mrad.stop"]
  else
    ["setInstance \"" ++ (z.mms_source_id ++ "\""), "stop"]

/-- `MmsZone.media_previous_track` (lines 748-755). -/
def media_previous_cmds (c : Ctrl) (z : MmsZone) : List String :=
  if c.mode = Mode.mrad then
    ["mrad.SetZone \"" ++ (ostr z.mms_zone_id ++ "\""), "mrad.SkipPrevious"]
  else
    ["setInstance \"" ++ (z.mms_source_id ++ "\""), "SkipPrevious"]

/-- `MmsZone.media_next_track` (lines 757-764). -/
def media_next_cmds (c : Ctrl) (z : MmsZone) : List String :=
  if c.mode = Mode.mrad then
    ["mrad.SetZone \"" ++ (ostr z.mms_zone_id ++ "\""), "mrad.SkipNext"]
  else
    ["setInstance \"" ++ (z.mms_source_id ++ "\""), "SkipNext"]

/-- `MmsZone.media_seek` (lines 766-782); `pos` is the integer seek
position.  The trailing `TrackTime` pops are state-only. -/
def media_seek_cmds (c : Ctrl) (z : MmsZone) (pos : Int) : List String :=
  (if c.mode = Mode.mrad then
    ["mrad.SetZone \"" ++ (ostr z.mms_zone_id ++ "\""), "mrad.SetSource"]
  else
    ["SetInstance \"" ++ (z.mms_source_id ++ "\"")]) ++
  ["seek " ++ toString pos]

/-- `MmsZone.clear_playlist` (lines 784-792). -/
def clear_playlist_cmds (c : Ctrl) (z : MmsZone) : List String :=
  (if c.mode = Mode.mrad then
    ["mrad.SetZone \"" ++ (ostr z.mms_zone_id ++ "\""), "mrad.SetSource"]
  else
    ["SetInstance \"" ++ (z.mms_source_id ++ "\"")]) ++
  ["ClearNowPlaying false"]

/-- `Controller.GetZoneByEntityId` (controller.py lines 232-240). -/
def GetZoneByEntityId (c : Ctrl) (eid : String) : Option MmsZone :=
  c.zoneEntities.find? (fun z => z.entity_id == eid)

/-- `MmsZone.join_players` (media_player.py lines 586-600): power up and
source-select the local zone if it is off, then power up each resolved
member and route it to the local source. -/
def join_players_cmds (c : Ctrl) (z : MmsZone) (gms : List String) : List String :=
  let pre : List String × MmsZone :=
    if z.isOn = false then
      (turn_on_cmds c z ++ select_source_cmds c z "Source_2000",
       { z with mms_source_id := "Source_2000" })
    else ([], z)
  pre.1 ++ gms.foldl
    (fun acc m => acc ++
      (match GetZoneByEntityId c m with
       | some other =>
           turn_on_cmds c other ++ select_source_cmds c other pre.2.mms_source_id
       | none => []))
    []

/-- `MmsZone.unjoin_player` (lines 602-604). -/
def unjoin_player_cmds (c : Ctrl) (z : MmsZone) : List String :=
  turn_off_cmds c z

/-- All commands sent by the consumer command paths the spec names
(source selection, power, repeat, shuffle, mute, volume, transport,
seek, playlist clear, join/unjoin), concatenated. -/
def consumerCmds (c : Ctrl) (z : MmsZone) (source : String) (gms : List String)
    (rep sh mu : Bool) (vol pos : Int) : List String :=
  select_source_cmds c z source ++ turn_on_cmds c z ++ turn_off_cmds c z ++
  set_repeat_cmds c z rep ++ set_shuffle_cmds c z sh ++ mute_volume_cmds c z mu ++
  set_volume_level_cmds c z vol ++ volume_up_cmds c z ++ volume_down_cmds c z ++
  media_play_cmds c z ++ media_pause_cmds c z ++ media_stop_cmds c z ++
  media_previous_cmds c z ++ media_next_cmds c z ++ media_seek_cmds c z pos ++
  clear_playlist_cmds c z ++ join_players_cmds c z gms ++ unjoin_player_cmds c z

/-- The leading verbs of the commands only the standalone paths emit:
the instance selector in its case variants and the bare instance-scoped
action verbs. -/
def saPrefixes : List String :=
  ["setInstance", "SetInstance", "setinstance", "play", "pause", "stop",
   "SkipNext", "SkipPrevious", "VolumeUp", "VolumeDown", "SetVolume",
   "mute ", "Repeat ", "Shuffle "]

/-- A command is standalone-only when its text begins with one of the
standalone-only verbs. -/
def isStandaloneOnly (cmd : String) : Bool :=
  saPrefixes.any (fun p => textStartsWith cmd p)

/-- Decidable precondition on a literal command head: no standalone-only
verb can be a prefix of any extension of this head. -/
def headClearSA (l : String) : Bool :=
  saPrefixes.all (fun p => !((p.data.take l.data.length).isPrefixOf l.data))

/- ---------------------------------------------------------------------
Concrete states used by witnesses and counterexamples.
--------------------------------------------------------------------- -/

/-- A controller with an empty event store and no placeholders. -/
def emptyCtrl : Ctrl :=
  ⟨Mode.mrad, true, false, [], [], []⟩

/-- A handler set whose zone-group handler raises and whose other
handlers are inert, used to witness the dispatcher theorem. -/
def wHandlers : HandlerSet :=
  ⟨fun _ c => ⟨c, [], false⟩, fun _ c => ⟨c, [], true⟩,
   fun _ c => ⟨c, [], false⟩, fun _ c => ⟨c, [], false⟩,
   fun _ c => ⟨c, [], false⟩⟩

/-- Concrete controller used to witness the throttle theorem: one prior
`TrackTime` value of `100` for entity `Z`. -/
def c1Ctrl : Ctrl :=
  ⟨Mode.mrad, true, false, [], [], [("Z.TrackTime", EvValue.str "100")]⟩

/-- Controller whose store holds the `None` sentinel written by the
empty-art reset for `Source_20000.mArt`. -/
def c9Ctrl : Ctrl :=
  ⟨Mode.mrad, true, false, [], [], [("Source_20000.mArt", EvValue.null)]⟩

/-- A standalone-mode controller for the command-path witness. -/
def c7SaCtrl : Ctrl :=
  ⟨Mode.standalone, true, false, [], [], []⟩

/-- An amplifier-mode controller for the command-path witness. -/
def c7MradCtrl : Ctrl :=
  ⟨Mode.mrad, true, false, [], [], []⟩

/-- A placeholder bound to instance `Player_A` for the command-path
witness. -/
def c7Zone : MmsZone :=
  ⟨"media_player.x", some "Zone_1", "Player_A", "X", "", "", [], true⟩

/-- A controller whose primary connection has reported a disconnect. -/
def c6Disconnected : Ctrl :=
  ⟨Mode.mrad, false, false, [], [], []⟩

/-- A zone group whose `<vol>` membership list holds exactly one zone
element (parsed by xmltodict as a mapping, not a list). -/
def c10Group : ZoneGroup :=
  ⟨"GG", "ZG_1", "20000", "", XmlNodes.many [⟨"Player A", "", "20000"⟩],
    XmlNodes.one ⟨"Zone_1", "00000001", "Office"⟩⟩

/-- Well-formedness of the accumulator of the `vol` zone loop, relative
to a fixed placeholder count `n`: the accumulated id list is
duplicate-free, all accumulated indices and all GUID-binding indices are
in range, and the placeholder count is unchanged. -/
def GoodAcc (n : Nat) (acc : Ctrl × List Nat × List String) : Prop :=
  acc.2.2.Nodup ∧ (∀ i ∈ acc.2.1, i < n) ∧
  (∀ p ∈ acc.1.zoneEntitiesByGuid, p.2 < n) ∧
  acc.1.zoneEntities.length = n

/-- Two pre-registered placeholders with static ids `Zone_2`, `Zone_1`
(in that order) whose entity ids sort the other way around. -/
def c3Ctrl : Ctrl :=
  ⟨Mode.mrad, true, false,
   [⟨"media_player.b", some "Zone_2", "", "B", "", "", [], false⟩,
    ⟨"media_player.a", some "Zone_1", "", "A", "", "", [], false⟩],
   [], []⟩

/-- A zone group reporting its member zones out of order and with a
duplicated zone element. -/
def c3Group : ZoneGroup :=
  ⟨"GG", "ZG_1", "20000", "http://art",
   XmlNodes.many [⟨"Player A", "", "20000"⟩],
   XmlNodes.many [⟨"Zone_2", "g2", "B"⟩, ⟨"Zone_1", "g1", "A"⟩, ⟨"Zone_2", "g2", "B"⟩]⟩

/- =====================================================================
Theorems.
===================================================================== -/

@[simp]
theorem getk_setk (st : EventStore) (k k' : String) (v : EvValue) :
    getk (setk st k v) k' = if k' = k then some v else getk st k' := by
  induction st with
  | nil =>
      by_cases h : k' = k
      · subst h; simp [setk, getk]
      · simp [setk, getk, h, Ne.symm h]
  | cons hd tl ih =>
      obtain ⟨k0, v0⟩ := hd
      by_cases h0 : k0 = k
      · subst h0
        by_cases h1 : k' = k0
        · subst h1; simp [setk, getk]
        · simp [setk, getk, h1, Ne.symm h1]
      · by_cases h1 : k' = k0
        · subst h1
          simp [setk, getk, h0]
        · simp [setk, getk, h0, h1, Ne.symm h1, ih]

theorem strAppend_cancel_left {a b c : String} (h : a ++ b = a ++ c) : b = c := by
  have hd : (a ++ b).data = (a ++ c).data := congrArg String.data h
  rw [String.data_append, String.data_append] at hd
  have h2 := List.append_cancel_left hd
  cases b
  cases c
  exact congrArg String.mk h2

theorem key_ne_of_suffix_ne (a : String) {s t : String} (h : s ≠ t) :
    a ++ s ≠ a ++ t :=
  fun hh => h (strAppend_cancel_left hh)

theorem getk_trackTimeStore_self (st : EventStore) (e ev : String) (now : Nat) :
    getk (trackTimeStore st e ev now) (e ++ "." ++ "TrackTime") = some (.str ev) := by
  have h1 : (e ++ "." ++ "TrackTime") ≠ (e ++ "." ++ "SmartSource") :=
    key_ne_of_suffix_ne (e ++ ".") (by decide)
  have h2 : (e ++ "." ++ "TrackTime") ≠ (e ++ "." ++ "TrackTimeUtc") :=
    key_ne_of_suffix_ne (e ++ ".") (by decide)
  simp [trackTimeStore, getk_setk, h1, h2]

/-- Claim C1: for a playback-position (`TrackTime`) telemetry event,
processed by the amplifier-zone handler or the standalone-instance
handler alike, with the configured tick threshold `T` and a positive
tick interval `I`: if a value is already stored under
`entityId.TrackTime` and the normalized integer value `n` of the new
event exceeds `T` and is not an exact multiple of `I`, the event store
is left completely unchanged and no entity refresh is triggered; in
every other case the normalized value is stored under
`entityId.TrackTime`. -/
theorem claim_C1_tracktime_throttle (T I : Int) (now : Nat) (c : Ctrl)
    (entityId v : String) (n : Int) (hI : 0 < I)
    (hp : pyToInt (normTT v) = some n) :
    if hasKey c.events (entityId ++ "." ++ "TrackTime") = true ∧ n > T ∧ Int.fmod n I ≠ 0 then
      (process_mrad_event T I now c entityId "TrackTime" v).events = c.events ∧
      (process_mrad_event T I now c entityId "TrackTime" v).refreshed = [] ∧
      (process_instance_event T I now c entityId "TrackTime" v).events = c.events ∧
      (process_instance_event T I now c entityId "TrackTime" v).refreshed = []
    else
      getk (process_mrad_event T I now c entityId "TrackTime" v).events
          (entityId ++ "." ++ "TrackTime") = some (.str (normTT v)) ∧
      getk (process_instance_event T I now c entityId "TrackTime" v).events
          (entityId ++ "." ++ "TrackTime") = some (.str (normTT v)) := by
  have hI0 : ¬I = 0 := by omega
  by_cases hk : hasKey c.events (entityId ++ "." ++ "TrackTime") = true
  · by_cases hbig : n > T
    · by_cases hmod : Int.fmod n I ≠ 0
      · rw [if_pos ⟨hk, hbig, hmod⟩]
        refine ⟨?_, ?_, ?_, ?_⟩ <;>
          simp [process_mrad_event, process_instance_event, hk, hp, hbig, hmod, hI0]
      · rw [if_neg (by tauto)]
        constructor
        · simp [process_mrad_event, hk, hp, hbig, hmod, hI0,
            getk_trackTimeStore_self]
        · by_cases hm : c.mode = Mode.standalone <;>
            simp [process_instance_event, hk, hp, hbig, hmod, hI0, hm,
              getk_trackTimeStore_self]
    · rw [if_neg (by tauto)]
      constructor
      · simp [process_mrad_event, hk, hp, hbig, getk_trackTimeStore_self]
      · by_cases hm : c.mode = Mode.standalone <;>
          simp [process_instance_event, hk, hp, hbig, hm, getk_trackTimeStore_self]
  · rw [if_neg (by tauto)]
    constructor
    · simp [process_mrad_event, hk, getk_trackTimeStore_self]
    · by_cases hm : c.mode = Mode.standalone <;>
        simp [process_instance_event, hk, hm, getk_trackTimeStore_self]

/-- Witness for C1 at a concrete input: prior value stored, new value
`00:00:00125` normalizing to `125`, threshold `60`, interval `10`; the
throttle condition holds and the drop branch of the theorem applies. -/
theorem claim_C1_tracktime_throttle_witness :
    (0 : Int) < 10 ∧ pyToInt (normTT "00:00:00125") = some 125 ∧
    (if hasKey c1Ctrl.events ("Z" ++ "." ++ "TrackTime") = true ∧
        (125 : Int) > 60 ∧ Int.fmod 125 10 ≠ 0 then
      (process_mrad_event 60 10 0 c1Ctrl "Z" "TrackTime" "00:00:00125").events = c1Ctrl.events ∧
      (process_mrad_event 60 10 0 c1Ctrl "Z" "TrackTime" "00:00:00125").refreshed = [] ∧
      (process_instance_event 60 10 0 c1Ctrl "Z" "TrackTime" "00:00:00125").events = c1Ctrl.events ∧
      (process_instance_event 60 10 0 c1Ctrl "Z" "TrackTime" "00:00:00125").refreshed = []
    else
      getk (process_mrad_event 60 10 0 c1Ctrl "Z" "TrackTime" "00:00:00125").events
          ("Z" ++ "." ++ "TrackTime") = some (.str (normTT "00:00:00125")) ∧
      getk (process_instance_event 60 10 0 c1Ctrl "Z" "TrackTime" "00:00:00125").events
          ("Z" ++ "." ++ "TrackTime") = some (.str (normTT "00:00:00125"))) :=
  ⟨by decide, by decide,
    claim_C1_tracktime_throttle 60 10 0 c1Ctrl "Z" "00:00:00125" 125
      (by decide) (by decide)⟩

/-- Claim C2 counterexample: on an empty store, the empty-art branch for
source `Source_20000` writes exactly ten keys, not seven as claimed
(art, the four metadata fields, duration, position, position-timestamp,
shuffle and the smart-source flag are ten keys). -/
theorem claim_C2_counterexample :
    (emptyArtReset [] "Source_20000").map Prod.fst =
      ["Source_20000.mArt", "Source_20000.MetaData1", "Source_20000.MetaData2",
       "Source_20000.MetaData3", "Source_20000.MetaData4",
       "Source_20000.TrackDuration", "Source_20000.TrackTime",
       "Source_20000.TrackTimeUtc", "Source_20000.Shuffle",
       "Source_20000.SmartSource"] ∧
    ((emptyArtReset [] "Source_20000").map Prod.fst).length = 10 ∧
    ¬((emptyArtReset [] "Source_20000").map Prod.fst).length = 7 := by
  decide

/-- Claim C2 (amended: ten keys, not seven): the empty-art branch resets
exactly the ten dependent keys of the group source — `mArt`, the four
metadata fields, `TrackDuration`, `TrackTime`, `TrackTimeUtc`,
`Shuffle` all to the `None` sentinel and `SmartSource` to `False` — and
leaves every other event-store key unchanged. -/
theorem claim_C2_empty_art_reset (st : EventStore) (sourceId k : String) :
    getk (emptyArtReset st sourceId) k =
      if k = sourceId ++ "." ++ "SmartSource" then some (.bool false)
      else if k = sourceId ++ "." ++ "Shuffle" then some .null
      else if k = sourceId ++ "." ++ "TrackTimeUtc" then some .null
      else if k = sourceId ++ "." ++ "TrackTime" then some .null
      else if k = sourceId ++ "." ++ "TrackDuration" then some .null
      else if k = sourceId ++ "." ++ "MetaData4" then some .null
      else if k = sourceId ++ "." ++ "MetaData3" then some .null
      else if k = sourceId ++ "." ++ "MetaData2" then some .null
      else if k = sourceId ++ "." ++ "MetaData1" then some .null
      else if k = sourceId ++ "." ++ "mArt" then some .null
      else getk st k := by
  simp [emptyArtReset, getk_setk]

/-- Claim C4: on the primary connection transition to `Connected`, the
controller clears the event store before any command is sent, then
negotiates client type and output format, then in standalone mode sends
only the instance-list browse, while in amplifier mode it sends
`mrad.subscribeevents` and `mrad.getstatus` strictly before
`mrad.browseallzones` and `mrad.browsezonegroups`. -/
theorem claim_C4_connect_sequence :
    mms_connected "*" true Mode.standalone =
      [Act.setConn true, Act.updSwitches, Act.clearEvents,
       Act.send "setclienttype hass", Act.send "setxmlmode lists",
       Act.send "browseinstances"] ∧
    mms_connected "*" true Mode.mrad =
      [Act.setConn true, Act.updSwitches, Act.clearEvents,
       Act.send "setclienttype hass", Act.send "setxmlmode lists",
       Act.send "mrad.subscribeevents", Act.send "mrad.getstatus",
       Act.send "browseinstances", Act.send "mrad.browseallzones",
       Act.send "mrad.browsezonegroups"] := by
  decide

/-- Claim C6 (code bug): with the primary connection disconnected, the
effective `available` property still returns `True`, because the second
definition of `available` in the class body (returning a constant
`True`) shadows the first one (which returns the connection state, the
behaviour the spec describes). -/
theorem claim_C6_available_code_bug :
    c6Disconnected.is_connected = false ∧
    available c6Disconnected = true ∧
    available_shadowed c6Disconnected = false := by
  decide

theorem tsw_append_false (l s p : String)
    (h : (p.data.take l.data.length).isPrefixOf l.data = false) :
    textStartsWith (l ++ s) p = false := by
  rw [textStartsWith, String.data_append]
  by_contra hb
  rw [Bool.not_eq_false] at hb
  have hp : p.data <+: l.data ++ s.data := List.isPrefixOf_iff_prefix.mp hb
  have he : p.data = (l.data ++ s.data).take p.data.length :=
    List.prefix_iff_eq_take.mp hp
  have h2 : p.data.take l.data.length =
      (l.data ++ s.data).take (min l.data.length p.data.length) := by
    conv_lhs => rw [he]
    rw [List.take_take]
  rw [List.take_append_of_le_length (min_le_left _ _)] at h2
  have h4 : p.data.take l.data.length <+: l.data := h2 ▸ List.take_prefix _ _
  have h5 : (p.data.take l.data.length).isPrefixOf l.data = true :=
    List.isPrefixOf_iff_prefix.mpr h4
  rw [h5] at h
  simp at h

theorem isStandaloneOnly_append_false (l s : String) (h : headClearSA l = true) :
    isStandaloneOnly (l ++ s) = false := by
  rw [isStandaloneOnly, List.any_eq_false]
  intro p hp
  rw [Bool.not_eq_true]
  refine tsw_append_false l s p ?_
  have h6 := (List.all_eq_true.mp h) p hp
  simpa using h6

theorem mem_append_forall {P : String → Prop} {l1 l2 : List String}
    (h1 : ∀ c ∈ l1, P c) (h2 : ∀ c ∈ l2, P c) : ∀ c ∈ l1 ++ l2, P c := by
  intro c hc
  rcases List.mem_append.mp hc with h | h
  · exact h1 _ h
  · exact h2 _ h

theorem foldl_append_forall {P : String → Prop} (f : String → List String)
    (hf : ∀ a, ∀ cmd ∈ f a, P cmd) :
    ∀ (l : List String) (acc : List String), (∀ cmd ∈ acc, P cmd) →
    ∀ cmd ∈ l.foldl (fun acc m => acc ++ f m) acc, P cmd := by
  intro l
  induction l with
  | nil => intro acc hacc cmd hcmd; exact hacc cmd hcmd
  | cons m rest ih =>
      intro acc hacc cmd hcmd
      refine ih _ ?_ cmd hcmd
      exact mem_append_forall hacc (hf m)

theorem join_players_forall {P : String → Prop} (c : Ctrl) (z : MmsZone)
    (gms : List String)
    (hON : ∀ zz : MmsZone, ∀ cmd ∈ turn_on_cmds c zz, P cmd)
    (hSEL : ∀ (zz : MmsZone) (src : String),
      ∀ cmd ∈ select_source_cmds c zz src, P cmd) :
    ∀ cmd ∈ join_players_cmds c z gms, P cmd := by
  intro cmd hcmd
  simp only [join_players_cmds] at hcmd
  rcases List.mem_append.mp hcmd with h | h
  · by_cases hio : z.isOn = false
    · rw [if_pos hio] at h
      exact mem_append_forall (hON z) (hSEL z _) cmd h
    · rw [if_neg hio] at h
      simp at h
  · refine foldl_append_forall
      (fun m => match GetZoneByEntityId c m with
        | some other => turn_on_cmds c other ++ select_source_cmds c other
            (if z.isOn = false then
              (turn_on_cmds c z ++ select_source_cmds c z "Source_2000",
               { z with mms_source_id := "Source_2000" })
             else ([], z)).2.mms_source_id
        | none => []) ?_ gms [] (by simp) cmd h
    intro a cmd' hcmd'
    beta_reduce at hcmd'
    cases hz : GetZoneByEntityId c a with
    | some other =>
        rw [hz] at hcmd'
        exact mem_append_forall (hON other) (hSEL other _) cmd' hcmd'
    | none =>
        rw [hz] at hcmd'
        simp at hcmd'

/-- Claim C7: along every consumer command path (source selection,
power, repeat, shuffle, mute, volume, transport, seek, playlist clear,
join/unjoin), a standalone-mode session never sends a command whose
text begins with `mrad.`, and an amplifier-mode session never sends a
standalone-only command (one beginning with a `setInstance` selector in
any case variant or a bare instance action verb). -/
theorem claim_C7_mode_commands (c : Ctrl) (z : MmsZone) (source : String)
    (gms : List String) (rep sh mu : Bool) (vol pos : Int) :
    (c.mode = Mode.standalone →
      ∀ cmd ∈ consumerCmds c z source gms rep sh mu vol pos,
        textStartsWith cmd "mrad." = false) ∧
    (c.mode = Mode.mrad →
      ∀ cmd ∈ consumerCmds c z source gms rep sh mu vol pos,
        isStandaloneOnly cmd = false) := by
  constructor
  · intro hm
    have hsel : ∀ (zz : MmsZone) (src : String), ∀ cmd ∈ select_source_cmds c zz src,
        textStartsWith cmd "mrad." = false := by
      intro zz src cmd hcmd
      simp [select_source_cmds, hm] at hcmd
    have hon : ∀ zz : MmsZone, ∀ cmd ∈ turn_on_cmds c zz,
        textStartsWith cmd "mrad." = false := by
      intro zz cmd hcmd
      simp [turn_on_cmds, hm] at hcmd
    have hoff : ∀ cmd ∈ turn_off_cmds c z, textStartsWith cmd "mrad." = false := by
      intro cmd hcmd
      simp [turn_off_cmds, hm] at hcmd
    have hjoin : ∀ cmd ∈ join_players_cmds c z gms,
        textStartsWith cmd "mrad." = false :=
      join_players_forall c z gms hon hsel
    unfold consumerCmds
    refine mem_append_forall (mem_append_forall (mem_append_forall
      (mem_append_forall (mem_append_forall (mem_append_forall
      (mem_append_forall (mem_append_forall (mem_append_forall
      (mem_append_forall (mem_append_forall (mem_append_forall
      (mem_append_forall (mem_append_forall (mem_append_forall
      (mem_append_forall (mem_append_forall (hsel z source) (hon z)) hoff)
        ?_) ?_) ?_) ?_) ?_) ?_) ?_) ?_) ?_) ?_) ?_) ?_) ?_) hjoin) hoff
    · intro cmd hcmd
      simp [set_repeat_cmds, hm] at hcmd
      rcases hcmd with rfl | rfl
      · exact tsw_append_false _ _ _ (by decide)
      · exact tsw_append_false _ _ _ (by decide)
    · intro cmd hcmd
      simp [set_shuffle_cmds, hm] at hcmd
      rcases hcmd with rfl | rfl
      · exact tsw_append_false _ _ _ (by decide)
      · exact tsw_append_false _ _ _ (by decide)
    · intro cmd hcmd
      simp [mute_volume_cmds, hm] at hcmd
      rcases hcmd with rfl | rfl
      · exact tsw_append_false _ _ _ (by decide)
      · exact tsw_append_false _ _ _ (by decide)
    · intro cmd hcmd
      simp [set_volume_level_cmds, hm] at hcmd
      by_cases hg : get_event c (ostr z.mms_zone_id) "GainMode" = .str "Fixed"
      · simp [hg] at hcmd
      · simp [hg] at hcmd
        rcases hcmd with rfl | rfl
        · exact tsw_append_false _ _ _ (by decide)
        · exact tsw_append_false _ _ _ (by decide)
    · intro cmd hcmd
      simp [volume_up_cmds, hm] at hcmd
      by_cases hg : get_event c (ostr z.mms_zone_id) "GainMode" = .str "Fixed"
      · simp [hg] at hcmd
      · simp [hg] at hcmd
        rcases hcmd with rfl | rfl
        · exact tsw_append_false _ _ _ (by decide)
        · decide
    · intro cmd hcmd
      simp [volume_down_cmds, hm] at hcmd
      by_cases hg : get_event c (ostr z.mms_zone_id) "GainMode" = .str "Fixed"
      · simp [hg] at hcmd
      · simp [hg] at hcmd
        rcases hcmd with rfl | rfl
        · exact tsw_append_false _ _ _ (by decide)
        · decide
    · intro cmd hcmd
      simp [media_play_cmds, hm] at hcmd
      rcases hcmd with rfl | rfl
      · exact tsw_append_false _ _ _ (by decide)
      · decide
    · intro cmd hcmd
      simp [media_pause_cmds, hm] at hcmd
      rcases hcmd with rfl | rfl
      · exact tsw_append_false _ _ _ (by decide)
      · decide
    · intro cmd hcmd
      simp [media_stop_cmds, hm] at hcmd
      rcases hcmd with rfl | rfl
      · exact tsw_append_false _ _ _ (by decide)
      · decide
    · intro cmd hcmd
      simp [media_previous_cmds, hm] at hcmd
      rcases hcmd with rfl | rfl
      · exact tsw_append_false _ _ _ (by decide)
      · decide
    · intro cmd hcmd
      simp [media_next_cmds, hm] at hcmd
      rcases hcmd with rfl | rfl
      · exact tsw_append_false _ _ _ (by decide)
      · decide
    · intro cmd hcmd
      simp [media_seek_cmds, hm] at hcmd
      rcases hcmd with rfl | rfl
      · exact tsw_append_false _ _ _ (by decide)
      · exact tsw_append_false _ _ _ (by decide)
    · intro cmd hcmd
      simp [clear_playlist_cmds, hm] at hcmd
      rcases hcmd with rfl | rfl
      · exact tsw_append_false _ _ _ (by decide)
      · decide
  · intro hm
    have hsel : ∀ (zz : MmsZone) (src : String), ∀ cmd ∈ select_source_cmds c zz src,
        isStandaloneOnly cmd = false := by
      intro zz src cmd hcmd
      simp [select_source_cmds, hm] at hcmd
      rcases hcmd with rfl | rfl
      · exact isStandaloneOnly_append_false _ _ (by decide)
      · exact isStandaloneOnly_append_false _ _ (by decide)
    have hon : ∀ zz : MmsZone, ∀ cmd ∈ turn_on_cmds c zz,
        isStandaloneOnly cmd = false := by
      intro zz cmd hcmd
      simp [turn_on_cmds, hm] at hcmd
      subst hcmd
      exact isStandaloneOnly_append_false _ _ (by decide)
    have hoff : ∀ cmd ∈ turn_off_cmds c z, isStandaloneOnly cmd = false := by
      intro cmd hcmd
      simp [turn_off_cmds, hm] at hcmd
      subst hcmd
      exact isStandaloneOnly_append_false _ _ (by decide)
    have hjoin : ∀ cmd ∈ join_players_cmds c z gms,
        isStandaloneOnly cmd = false :=
      join_players_forall c z gms hon hsel
    unfold consumerCmds
    refine mem_append_forall (mem_append_forall (mem_append_forall
      (mem_append_forall (mem_append_forall (mem_append_forall
      (mem_append_forall (mem_append_forall (mem_append_forall
      (mem_append_forall (mem_append_forall (mem_append_forall
      (mem_append_forall (mem_append_forall (mem_append_forall
      (mem_append_forall (mem_append_forall (hsel z source) (hon z)) hoff)
        ?_) ?_) ?_) ?_) ?_) ?_) ?_) ?_) ?_) ?_) ?_) ?_) ?_) hjoin) hoff
    · intro cmd hcmd
      simp [set_repeat_cmds, hm] at hcmd
      rcases hcmd with rfl | rfl
      · exact isStandaloneOnly_append_false _ _ (by decide)
      · exact isStandaloneOnly_append_false _ _ (by decide)
    · intro cmd hcmd
      simp [set_shuffle_cmds, hm] at hcmd
      rcases hcmd with rfl | rfl
      · exact isStandaloneOnly_append_false _ _ (by decide)
      · exact isStandaloneOnly_append_false _ _ (by decide)
    · intro cmd hcmd
      simp [mute_volume_cmds, hm] at hcmd
      by_cases hp : c.perform_group_volumes
      · simp [hp] at hcmd
        subst hcmd
        exact isStandaloneOnly_append_false _ _ (by decide)
      · simp [hp] at hcmd
        rcases hcmd with rfl | rfl
        · exact isStandaloneOnly_append_false _ _ (by decide)
        · exact isStandaloneOnly_append_false _ _ (by decide)
    · intro cmd hcmd
      simp [set_volume_level_cmds, hm] at hcmd
      by_cases hp : c.perform_group_volumes
      · simp [hp] at hcmd
        subst hcmd
        exact isStandaloneOnly_append_false _ _ (by decide)
      · simp [hp] at hcmd
        rcases hcmd with rfl | rfl
        · exact isStandaloneOnly_append_false _ _ (by decide)
        · exact isStandaloneOnly_append_false _ _ (by decide)
    · intro cmd hcmd
      simp [volume_up_cmds, hm] at hcmd
      by_cases hp : c.perform_group_volumes
      · simp [hp] at hcmd
        subst hcmd
        exact isStandaloneOnly_append_false _ _ (by decide)
      · simp [hp] at hcmd
        rcases hcmd with rfl | rfl
        · exact isStandaloneOnly_append_false _ _ (by decide)
        · decide
    · intro cmd hcmd
      simp [volume_down_cmds, hm] at hcmd
      by_cases hp : c.perform_group_volumes
      · simp [hp] at hcmd
        subst hcmd
        exact isStandaloneOnly_append_false _ _ (by decide)
      · simp [hp] at hcmd
        rcases hcmd with rfl | rfl
        · exact isStandaloneOnly_append_false _ _ (by decide)
        · decide
    · intro cmd hcmd
      simp [media_play_cmds, hm] at hcmd
      rcases hcmd with rfl | rfl
      · exact isStandaloneOnly_append_false _ _ (by decide)
      · decide
    · intro cmd hcmd
      simp [media_pause_cmds, hm] at hcmd
      rcases hcmd with rfl | rfl
      · exact isStandaloneOnly_append_false _ _ (by decide)
      · decide
    · intro cmd hcmd
      simp [media_stop_cmds, hm] at hcmd
      rcases hcmd with rfl | rfl
      · exact isStandaloneOnly_append_false _ _ (by decide)
      · decide
    · intro cmd hcmd
      simp [media_previous_cmds, hm] at hcmd
      rcases hcmd with rfl | rfl
      · exact isStandaloneOnly_append_false _ _ (by decide)
      · decide
    · intro cmd hcmd
      simp [media_next_cmds, hm] at hcmd
      rcases hcmd with rfl | rfl
      · exact isStandaloneOnly_append_false _ _ (by decide)
      · decide
    · intro cmd hcmd
      simp [media_seek_cmds, hm] at hcmd
      rcases hcmd with rfl | rfl | rfl
      · exact isStandaloneOnly_append_false _ _ (by decide)
      · decide
      · exact isStandaloneOnly_append_false _ _ (by decide)
    · intro cmd hcmd
      simp [clear_playlist_cmds, hm] at hcmd
      rcases hcmd with rfl | rfl | rfl
      · exact isStandaloneOnly_append_false _ _ (by decide)
      · decide
      · decide

/-- Witness for C7: a concrete standalone command carries no `mrad.`
prefix and a concrete amplifier command is not standalone-only. -/
theorem claim_C7_mode_commands_witness :
    textStartsWith ("setInstance \"" ++ ("Player_A" ++ "\"")) "mrad." = false ∧
    isStandaloneOnly "mrad.play" = false :=
  ⟨(claim_C7_mode_commands c7SaCtrl c7Zone "S" [] true true true 1 2).1 rfl
      ("setInstance \"" ++ ("Player_A" ++ "\"")) (by decide),
   (claim_C7_mode_commands c7MradCtrl c7Zone "S" [] true true true 1 2).2 rfl
      "mrad.play" (by decide)⟩

/-- Claim C9 counterexample: the point lookup `get_event` returns the
same result for a key that is present holding the `None` sentinel
(written by the empty-art reset) as for a missing key, so a present
null is not distinguishable from absent through `get_event`. -/
theorem claim_C9_counterexample :
    hasKey c9Ctrl.events "Source_20000.mArt" = true ∧
    hasKey emptyCtrl.events "Source_20000.mArt" = false ∧
    get_event c9Ctrl "Source_20000" "mArt" =
      get_event emptyCtrl "Source_20000" "mArt" := by
  decide

/-- Claim C9 (amended): `get_event` returns the absent sentinel (`None`)
exactly when the composite key is missing from the store or the stored
value is itself the `None` sentinel; only store membership (`hasKey`)
distinguishes a present null from an absent key. -/
theorem claim_C9_get_event_null_iff (c : Ctrl) (e n : String) :
    get_event c e n = EvValue.null ↔
      (getk c.events (e ++ "." ++ n) = none ∨
       getk c.events (e ++ "." ++ n) = some EvValue.null) := by
  unfold get_event
  cases h : getk c.events (e ++ "." ++ n) <;> simp [h]

theorem append_ne_of_rev_indep (a b s t : String)
    (h1 : s.data.reverse.isPrefixOf t.data.reverse = false)
    (h2 : t.data.reverse.isPrefixOf s.data.reverse = false) :
    a ++ s ≠ b ++ t := by
  intro he
  have hd : a.data ++ s.data = b.data ++ t.data := by
    have h3 := congrArg String.data he
    rwa [String.data_append, String.data_append] at h3
  have hr : s.data.reverse ++ a.data.reverse = t.data.reverse ++ b.data.reverse := by
    have h4 := congrArg List.reverse hd
    simpa [List.reverse_append] using h4
  rcases List.append_eq_append_iff.mp hr with ⟨x, hx, _⟩ | ⟨x, hx, _⟩
  · exact absurd (List.isPrefixOf_iff_prefix.mpr ⟨x, hx.symm⟩) (by simp [h1])
  · exact absurd (List.isPrefixOf_iff_prefix.mpr ⟨x, hx.symm⟩) (by simp [h2])

theorem getk_emptyArtReset_srcList (st : EventStore) (sid a : String) :
    getk (emptyArtReset st sid) (a ++ "SourceList") = getk st (a ++ "SourceList") := by
  have n1 : a ++ "SourceList" ≠ sid ++ "." ++ "mArt" :=
    append_ne_of_rev_indep _ _ _ _ (by decide) (by decide)
  have n2 : a ++ "SourceList" ≠ sid ++ "." ++ "MetaData1" :=
    append_ne_of_rev_indep _ _ _ _ (by decide) (by decide)
  have n3 : a ++ "SourceList" ≠ sid ++ "." ++ "MetaData2" :=
    append_ne_of_rev_indep _ _ _ _ (by decide) (by decide)
  have n4 : a ++ "SourceList" ≠ sid ++ "." ++ "MetaData3" :=
    append_ne_of_rev_indep _ _ _ _ (by decide) (by decide)
  have n5 : a ++ "SourceList" ≠ sid ++ "." ++ "MetaData4" :=
    append_ne_of_rev_indep _ _ _ _ (by decide) (by decide)
  have n6 : a ++ "SourceList" ≠ sid ++ "." ++ "TrackDuration" :=
    append_ne_of_rev_indep _ _ _ _ (by decide) (by decide)
  have n7 : a ++ "SourceList" ≠ sid ++ "." ++ "TrackTime" :=
    append_ne_of_rev_indep _ _ _ _ (by decide) (by decide)
  have n8 : a ++ "SourceList" ≠ sid ++ "." ++ "TrackTimeUtc" :=
    append_ne_of_rev_indep _ _ _ _ (by decide) (by decide)
  have n9 : a ++ "SourceList" ≠ sid ++ "." ++ "Shuffle" :=
    append_ne_of_rev_indep _ _ _ _ (by decide) (by decide)
  have n10 : a ++ "SourceList" ≠ sid ++ "." ++ "SmartSource" :=
    append_ne_of_rev_indep _ _ _ _ (by decide) (by decide)
  simp [emptyArtReset, getk_setk, n1, n2, n3, n4, n5, n6, n7, n8, n9, n10]

theorem getk_nonEmptyArtSet_srcList (st : EventStore) (sid mArt a : String) :
    getk (nonEmptyArtSet st sid mArt) (a ++ "SourceList") =
      getk st (a ++ "SourceList") := by
  have n1 : a ++ "SourceList" ≠ sid ++ "." ++ "mArt" :=
    append_ne_of_rev_indep _ _ _ _ (by decide) (by decide)
  have n2 : a ++ "SourceList" ≠ sid ++ "." ++ "SmartSource" :=
    append_ne_of_rev_indep _ _ _ _ (by decide) (by decide)
  simp [nonEmptyArtSet, getk_setk, n1, n2]

theorem getk_qsnFold_srcList (ss : List ZGSource) (acc : List String × EventStore)
    (a : String) :
    getk (ss.foldl qsnStep acc).2 (a ++ "SourceList") =
      getk acc.2 (a ++ "SourceList") := by
  induction ss generalizing acc with
  | nil => rfl
  | cons s ss ih =>
      rw [List.foldl_cons, ih]
      have h : a ++ "SourceList" ≠ "Source_" ++ s.sId ++ "." ++ "QualifiedSourceName" :=
        append_ne_of_rev_indep _ _ _ _ (by decide) (by decide)
      simp [qsnStep, getk_setk, h]

/-- Claim C10: a zone-group snapshot whose only group carries exactly
one zone element in its membership list makes the group handler raise
while iterating that list (the lone element parses as a mapping, unlike
the explicitly normalized Sources list).  The zone is never bound
(placeholders and GUID bindings are untouched), its `SourceList` event
is never assigned, and the dispatcher answers the exception by asking
the session to terminate with `quit`. -/
theorem claim_C10_single_zone_group (c : Ctrl) (g : ZoneGroup) (z : ZGZone)
    (hv : g.volZones = XmlNodes.one z) :
    (process_mrad_zone_group_response c [g]).err = true ∧
    (process_mrad_zone_group_response c [g]).state.zoneEntities = c.zoneEntities ∧
    (process_mrad_zone_group_response c [g]).state.zoneEntitiesByGuid =
      c.zoneEntitiesByGuid ∧
    getk (process_mrad_zone_group_response c [g]).state.events
        (z.eventId ++ "." ++ "SourceList") =
      getk c.events (z.eventId ++ "." ++ "SourceList") ∧
    (handleResult (process_mrad_zone_group_response c [g])).2 = ["quit"] := by
  have hframe : process_mrad_zone_group_response c [g] =
      ⟨(process_zone_group c g).state, [], (process_zone_group c g).err⟩ := by
    simp [process_mrad_zone_group_response]
  have hgrp : process_zone_group c g =
      ⟨{ c with events :=
          ((match g.sources with
            | .one s => [s]
            | .many l => l).foldl qsnStep
            ([], if g.mArt = "" then emptyArtReset c.events ("Source_" ++ g.sId)
                 else nonEmptyArtSet c.events ("Source_" ++ g.sId) g.mArt)).2 },
        [], [], true⟩ := by
    rw [process_zone_group, hv]
  rw [hframe, hgrp]
  refine ⟨rfl, rfl, rfl, ?_, by simp [handleResult]⟩
  show getk _ ((z.eventId ++ ".") ++ "SourceList") = getk _ ((z.eventId ++ ".") ++ "SourceList")
  rw [getk_qsnFold_srcList]
  by_cases hart : g.mArt = "" <;>
    simp [hart, getk_emptyArtReset_srcList, getk_nonEmptyArtSet_srcList]

/-- Witness for C10: a concrete single-zone group processed from the
empty controller raises, binds nothing, assigns no source list, and
triggers a `quit`. -/
theorem claim_C10_single_zone_group_witness :
    (process_mrad_zone_group_response emptyCtrl [c10Group]).err = true ∧
    (process_mrad_zone_group_response emptyCtrl [c10Group]).state.zoneEntities =
      emptyCtrl.zoneEntities ∧
    (process_mrad_zone_group_response emptyCtrl [c10Group]).state.zoneEntitiesByGuid =
      emptyCtrl.zoneEntitiesByGuid ∧
    getk (process_mrad_zone_group_response emptyCtrl [c10Group]).state.events
        ("Zone_1" ++ "." ++ "SourceList") =
      getk emptyCtrl.events ("Zone_1" ++ "." ++ "SourceList") ∧
    (handleResult (process_mrad_zone_group_response emptyCtrl [c10Group])).2 = ["quit"] :=
  claim_C10_single_zone_group emptyCtrl c10Group ⟨"Zone_1", "00000001", "Office"⟩ rfl

theorem updAt_cons_zero (z : MmsZone) (rest : List MmsZone) (f : MmsZone → MmsZone) :
    updAt (z :: rest) 0 f = f z :: rest := by
  simp [updAt, List.set]

theorem updAt_cons_succ (z : MmsZone) (rest : List MmsZone) (i : Nat)
    (f : MmsZone → MmsZone) :
    updAt (z :: rest) (i + 1) f = z :: updAt rest i f := by
  unfold updAt
  cases h : rest[i]? <;> simp [h, List.set]

theorem length_updAt (l : List MmsZone) (i : Nat) (f : MmsZone → MmsZone) :
    (updAt l i f).length = l.length := by
  unfold updAt
  cases h : l[i]? <;> simp

theorem getElem?_updAt (f : MmsZone → MmsZone) :
    ∀ (l : List MmsZone) (i j : Nat),
    (updAt l i f)[j]? = if i = j then (l[j]?).map f else l[j]? := by
  intro l
  induction l with
  | nil => intro i j; simp [updAt]
  | cons z rest ih =>
      intro i j
      cases i with
      | zero =>
          cases j with
          | zero => simp [updAt_cons_zero]
          | succ j' => simp [updAt_cons_zero]
      | succ i' =>
          cases j with
          | zero => simp [updAt_cons_succ]
          | succ j' => simp [updAt_cons_succ, ih]

theorem scanFor_lt {eid : String} :
    ∀ {zs : List MmsZone} {i : Nat}, scanFor zs eid = some i → i < zs.length := by
  intro zs
  induction zs with
  | nil => intro i h; simp [scanFor] at h
  | cons z rest ih =>
      intro i h
      by_cases hz : (z.mms_zone_id == some eid) = true
      · simp [scanFor, hz] at h
        simp only [List.length_cons]
        omega
      · simp [scanFor, hz] at h
        obtain ⟨a, ha, rfl⟩ := h
        have := ih ha
        simp only [List.length_cons]
        omega

theorem lookup_mem {l : List (String × Nat)} {k : String} {v : Nat}
    (h : l.lookup k = some v) : (k, v) ∈ l := by
  induction l with
  | nil => simp [List.lookup] at h
  | cons p rest ih =>
      obtain ⟨a, b⟩ := p
      by_cases hk : (k == a) = true
      · have ha : a = k := (eq_of_beq hk).symm
        subst ha
        simp only [List.lookup, hk] at h
        cases h
        exact List.mem_cons_self _ _
      · simp only [Bool.not_eq_true] at hk
        simp only [List.lookup, hk] at h
        exact List.mem_cons_of_mem _ (ih h)

theorem snsg_members (z : MmsZone) (w : List String) :
    (set_name_source_and_group z none none none none (some w)).group_members = w := by
  unfold set_name_source_and_group
  by_cases h : z.group_members = w <;> simp [h]

theorem strLeb_total : ∀ (as bs : List Char),
    strLeb as bs = true ∨ strLeb bs as = true := by
  intro as
  induction as with
  | nil => intro bs; left; rfl
  | cons a as' ih =>
      intro bs
      cases bs with
      | nil => right; rfl
      | cons b bs' =>
          by_cases h : a = b
          · subst h
            simpa [strLeb] using ih bs'
          · rcases lt_or_gt_of_ne h with hlt | hgt
            · left; simp [strLeb, h, hlt]
            · right; simp [strLeb, Ne.symm h, hgt]

theorem strLeb_trans : ∀ (as bs cs : List Char),
    strLeb as bs = true → strLeb bs cs = true → strLeb as cs = true := by
  intro as
  induction as with
  | nil => intro bs cs _ _; rfl
  | cons a as' ih =>
      intro bs cs h1 h2
      cases bs with
      | nil => simp [strLeb] at h1
      | cons b bs' =>
          cases cs with
          | nil => simp [strLeb] at h2
          | cons c cs' =>
              by_cases hab : a = b
              · subst hab
                by_cases hac : a = c
                · subst hac
                  simp [strLeb] at h1 h2 ⊢
                  exact ih bs' cs' h1 h2
                · simp [strLeb, hac] at h2 ⊢
                  exact h2
              · by_cases hbc : b = c
                · subst hbc
                  simp [strLeb, hab] at h1 ⊢
                  exact h1
                · simp [strLeb, hab] at h1
                  simp [strLeb, hbc] at h2
                  have hac2 : a < c := lt_trans h1 h2
                  simp [strLeb, ne_of_lt hac2, hac2]

theorem sorted_pySort (l : List String) : List.Sorted sLe (pySort l) := by
  haveI htot : IsTotal String sLe :=
    ⟨fun a b => (strLeb_total a.data b.data).imp id id⟩
  haveI htr : IsTrans String sLe :=
    ⟨fun a b c h1 h2 => strLeb_trans a.data b.data c.data h1 h2⟩
  exact List.sorted_insertionSort sLe l

theorem nodup_pySort {l : List String} (h : l.Nodup) : (pySort l).Nodup :=
  (List.perm_insertionSort sLe l).nodup_iff.mpr h

theorem volZoneStep_good (g : ZoneGroup) (srcs : List String) {n : Nat}
    {acc : Ctrl × List Nat × List String} (z : ZGZone)
    (h : GoodAcc n acc) : GoodAcc n (volZoneStep g srcs acc z) := by
  obtain ⟨hnd, hidx, hbg, hlen⟩ := h
  unfold volZoneStep
  cases hl : acc.1.zoneEntitiesByGuid.lookup z.guid with
  | some i =>
      have hi : i < n := hbg _ (lookup_mem hl)
      cases hf : acc.1.zoneEntities[i]? with
      | some found =>
          by_cases hm : found.entity_id ∈ acc.2.2
          · simp only [hl, hf, hm, if_pos]
            exact ⟨hnd, hidx, hbg, by simpa [length_updAt] using hlen⟩
          · simp only [hl, hf, hm, if_neg, not_false_iff]
            refine ⟨?_, ?_, hbg, by simpa [length_updAt] using hlen⟩
            · simpa [List.nodup_append] using ⟨hnd, hm⟩
            · intro j hj
              rcases List.mem_append.mp hj with hj | hj
              · exact hidx _ hj
              · simp at hj; omega
      | none =>
          simp only [hl, hf]
          exact ⟨hnd, hidx, hbg, by simpa [length_updAt] using hlen⟩
  | none =>
      cases hs : scanFor acc.1.zoneEntities z.eventId with
      | some i =>
          have hi : i < n := hlen ▸ scanFor_lt hs
          cases hf : acc.1.zoneEntities[i]? with
          | some found =>
              by_cases hm : found.entity_id ∈ acc.2.2
              · simp only [hl, hs, hf, hm, if_pos]
                refine ⟨hnd, hidx, ?_, by simpa [length_updAt] using hlen⟩
                intro p hp
                rcases List.mem_cons.mp hp with hp | hp
                · subst hp; exact hi
                · exact hbg _ hp
              · simp only [hl, hs, hf, hm, if_neg, not_false_iff]
                refine ⟨?_, ?_, ?_, by simpa [length_updAt] using hlen⟩
                · simpa [List.nodup_append] using ⟨hnd, hm⟩
                · intro j hj
                  rcases List.mem_append.mp hj with hj | hj
                  · exact hidx _ hj
                  · simp at hj; omega
                · intro p hp
                  rcases List.mem_cons.mp hp with hp | hp
                  · subst hp; exact hi
                  · exact hbg _ hp
          | none =>
              simp only [hl, hs, hf]
              refine ⟨hnd, hidx, ?_, by simpa [length_updAt] using hlen⟩
              intro p hp
              rcases List.mem_cons.mp hp with hp | hp
              · subst hp; exact hi
              · exact hbg _ hp
      | none =>
          simp only [hl, hs]
          exact ⟨hnd, hidx, hbg, hlen⟩

theorem volFold_good (g : ZoneGroup) (srcs : List String) {n : Nat} :
    ∀ (zs : List ZGZone) (acc : Ctrl × List Nat × List String),
    GoodAcc n acc → GoodAcc n (zs.foldl (volZoneStep g srcs) acc) := by
  intro zs
  induction zs with
  | nil => intro acc h; exact h
  | cons z zs' ih =>
      intro acc h
      exact ih _ (volZoneStep_good g srcs z h)

theorem gmWriteFold_not_mem (w : List String) :
    ∀ (ix : List Nat) (zs : List MmsZone) (j : Nat), j ∉ ix →
    ((ix.foldl (fun l i => updAt l i
        (fun zz => set_name_source_and_group zz none none none none (some w))) zs)[j]?)
      = zs[j]? := by
  intro ix
  induction ix with
  | nil => intro zs j _; rfl
  | cons i rest ih =>
      intro zs j hj
      rw [List.foldl_cons, ih _ _ (fun h => hj (List.mem_cons_of_mem _ h))]
      rw [getElem?_updAt]
      have hij : ¬i = j := fun h => hj (h ▸ List.mem_cons_self _ _)
      simp [hij]

theorem gmWriteFold_mem (w : List String) :
    ∀ (ix : List Nat) (zs : List MmsZone) (j : Nat), j ∈ ix → j < zs.length →
    ∃ z, ((ix.foldl (fun l i => updAt l i
        (fun zz => set_name_source_and_group zz none none none none (some w))) zs)[j]?)
        = some z ∧ z.group_members = w := by
  intro ix
  induction ix with
  | nil => intro zs j hj _; simp at hj
  | cons i rest ih =>
      intro zs j hj hlt
      rw [List.foldl_cons]
      by_cases hr : j ∈ rest
      · exact ih _ _ hr (by simpa [length_updAt] using hlt)
      · have hij : i = j := by
          rcases List.mem_cons.mp hj with h | h
          · exact h.symm
          · exact absurd h hr
        subst hij
        rw [gmWriteFold_not_mem w rest _ _ hr, getElem?_updAt]
        cases h0 : zs[i]? with
        | none =>
            rw [List.getElem?_eq_none_iff] at h0
            omega
        | some z0 =>
            exact ⟨_, by simp, snsg_members z0 w⟩

/-- Claim C3: after processing a zone-group element, the member
entity-id list written to every member placeholder is sorted and
duplicate-free for any ordering and duplication of the reported zones,
and every accumulated member placeholder carries exactly that list as
its group-member list.  The hypothesis is the GUID-binding
well-formedness invariant (every bound index points into the
placeholder list), which the code maintains. -/
theorem claim_C3_group_members_sorted (c : Ctrl) (g : ZoneGroup)
    (hwf : ∀ p ∈ c.zoneEntitiesByGuid, p.2 < c.zoneEntities.length) :
    List.Sorted sLe (process_zone_group c g).memberIds ∧
    (process_zone_group c g).memberIds.Nodup ∧
    ∀ i ∈ (process_zone_group c g).memberIdx,
      ∃ z, ((process_zone_group c g).state.zoneEntities)[i]? = some z ∧
        z.group_members = (process_zone_group c g).memberIds := by
  cases hv : g.volZones with
  | one z =>
      simp only [process_zone_group, hv]
      refine ⟨List.sorted_nil, List.nodup_nil, ?_⟩
      intro i hi
      simp at hi
  | many zs =>
      simp only [process_zone_group, hv]
      have hinit : GoodAcc c.zoneEntities.length
          ({ c with events := (List.foldl qsnStep
              ([], if g.mArt = "" then emptyArtReset c.events ("Source_" ++ g.sId)
                   else nonEmptyArtSet c.events ("Source_" ++ g.sId) g.mArt)
              (match g.sources with
                | .one s => [s]
                | .many l => l)).2 },
            [], []) :=
        ⟨List.nodup_nil, by simp, hwf, rfl⟩
      obtain ⟨hnd, hidx, _, hlen⟩ :=
        volFold_good g
          (List.foldl qsnStep
            ([], if g.mArt = "" then emptyArtReset c.events ("Source_" ++ g.sId)
                 else nonEmptyArtSet c.events ("Source_" ++ g.sId) g.mArt)
            (match g.sources with
              | .one s => [s]
              | .many l => l)).1
          zs _ hinit
      refine ⟨sorted_pySort _, nodup_pySort hnd, ?_⟩
      intro i hi
      exact gmWriteFold_mem _ _ _ _ hi (hlen ▸ hidx _ hi)

/-- Witness for C3: the two-placeholder controller and the
out-of-order, duplicated group produce the sorted duplicate-free member
list written to each member placeholder. -/
theorem claim_C3_group_members_sorted_witness :
    List.Sorted sLe (process_zone_group c3Ctrl c3Group).memberIds ∧
    (process_zone_group c3Ctrl c3Group).memberIds.Nodup ∧
    ∀ i ∈ (process_zone_group c3Ctrl c3Group).memberIdx,
      ∃ z, ((process_zone_group c3Ctrl c3Group).state.zoneEntities)[i]? = some z ∧
        z.group_members = (process_zone_group c3Ctrl c3Group).memberIds :=
  claim_C3_group_members_sorted c3Ctrl c3Group (by simp [c3Ctrl])

/-- Claim C8: an inbound frame whose stripped text matches none of the
five fixed prefixes leaves the state unchanged, sends nothing and never
raises; and whenever the matched handler raises, the dispatcher keeps
the handler's (possibly partial) state, appends a `quit` request to its
sends, and does not propagate the exception. -/
theorem claim_C8_dispatch (hs : HandlerSet) (c : Ctrl) (raw : String) :
    (matchedPrefix (pyStrip raw) = false →
      async_mms_process_response hs c raw = (c, [])) ∧
    ((dispatchInner hs c (pyStrip raw)).err = true →
      async_mms_process_response hs c raw =
        ((dispatchInner hs c (pyStrip raw)).state,
         (dispatchInner hs c (pyStrip raw)).cmds ++ ["quit"])) := by
  constructor
  · intro h
    simp only [matchedPrefix, Bool.or_eq_false_iff] at h
    obtain ⟨⟨⟨⟨⟨h1, h2⟩, h3⟩, h4⟩, h5⟩, h6⟩ := h
    simp [async_mms_process_response, dispatchInner, handleResult, h1, h2, h3, h4, h5, h6]
  · intro h
    simp [async_mms_process_response, handleResult, h]

/-- Witness for C8: the frame `hello world` matches no prefix and is
dropped without any state change; a `ZoneGroups` frame whose handler
raises results in a `quit` request. -/
theorem claim_C8_dispatch_witness :
    (matchedPrefix (pyStrip "hello world") = false ∧
      async_mms_process_response wHandlers emptyCtrl "hello world" = (emptyCtrl, [])) ∧
    ((dispatchInner wHandlers emptyCtrl (pyStrip "<ZoneGroups a")).err = true ∧
      async_mms_process_response wHandlers emptyCtrl "<ZoneGroups a" =
        ((dispatchInner wHandlers emptyCtrl (pyStrip "<ZoneGroups a")).state,
         (dispatchInner wHandlers emptyCtrl (pyStrip "<ZoneGroups a")).cmds ++ ["quit"])) :=
  ⟨⟨by decide, (claim_C8_dispatch wHandlers emptyCtrl "hello world").1 (by decide)⟩,
   ⟨by decide, (claim_C8_dispatch wHandlers emptyCtrl "<ZoneGroups a").2 (by decide)⟩⟩

theorem zoneUpd_eq (e : ZoneElem) (z : MmsZone) :
    zoneUpd e z =
      { z with name := e.name, mms_source_id := "Source_" ++ e.sourceId } := by
  unfold zoneUpd set_name_source_and_group
  by_cases h1 : e.name ≠ z.name <;>
    by_cases h2 : ("Source_" ++ e.sourceId) ≠ z.mms_source_id <;>
    simp_all

theorem zoneUpd_zid (e : ZoneElem) (z : MmsZone) :
    (zoneUpd e z).mms_zone_id = z.mms_zone_id := by
  rw [zoneUpd_eq]

theorem zoneUpd_absorb (e e' : ZoneElem) (z : MmsZone) :
    zoneUpd e (zoneUpd e' z) = zoneUpd e z := by
  rw [zoneUpd_eq, zoneUpd_eq, zoneUpd_eq]

theorem map_updAt {α : Type} {f : MmsZone → α} {g : MmsZone → MmsZone}
    (hfg : ∀ z, f (g z) = f z) :
    ∀ (l : List MmsZone) (i : Nat), (updAt l i g).map f = l.map f := by
  intro l
  induction l with
  | nil => intro i; rfl
  | cons z rest ih =>
      intro i
      cases i with
      | zero => rw [updAt_cons_zero]; simp [hfg]
      | succ i' => rw [updAt_cons_succ]; simp [ih]

theorem scanFor_congr {eid : String} :
    ∀ {zs1 zs2 : List MmsZone},
    zs1.map MmsZone.mms_zone_id = zs2.map MmsZone.mms_zone_id →
    scanFor zs1 eid = scanFor zs2 eid := by
  intro zs1
  induction zs1 with
  | nil =>
      intro zs2 h
      cases zs2 with
      | nil => rfl
      | cons z2 r2 => simp at h
  | cons z rest ih =>
      intro zs2 h
      cases zs2 with
      | nil => simp at h
      | cons z2 rest2 =>
          simp only [List.map_cons, List.cons.injEq] at h
          rw [scanFor, scanFor, h.1, ih h.2]

theorem lookup_cons_self (g : String) (i : Nat) (m : List (String × Nat)) :
    ((g, i) :: m).lookup g = some i := by
  simp [List.lookup]

theorem lookup_cons_ne {g g' : String} (h : ¬g' = g) (i : Nat)
    (m : List (String × Nat)) :
    ((g, i) :: m).lookup g' = m.lookup g' := by
  have hb : (g' == g) = false := beq_eq_false_iff_ne.mpr h
  simp [List.lookup, hb]

theorem mstep_lookup_mono (σ : String → Option Nat) {m : List (String × Nat)}
    {g : String} {i : Nat} (e : ZoneElem) (h : m.lookup g = some i) :
    (mstep σ m e).lookup g = some i := by
  unfold mstep
  cases hl : m.lookup e.guid with
  | some j => exact h
  | none =>
      cases hs : σ e.id with
      | none => exact h
      | some j =>
          have hne : ¬g = e.guid := by
            intro hgg
            rw [hgg] at h
            rw [h] at hl
            cases hl
          rw [lookup_cons_ne hne, h]

theorem mfold_lookup_mono (σ : String → Option Nat) {g : String} {i : Nat} :
    ∀ (es : List ZoneElem) (m : List (String × Nat)), m.lookup g = some i →
    (mfold σ m es).lookup g = some i := by
  intro es
  induction es with
  | nil => intro m h; exact h
  | cons e rest ih =>
      intro m h
      exact ih _ (mstep_lookup_mono σ e h)

theorem mfold_none_scan_none {σ : String → Option Nat} {e : ZoneElem} :
    ∀ (es : List ZoneElem) (m : List (String × Nat)), e ∈ es →
    (mfold σ m es).lookup e.guid = none → σ e.id = none := by
  intro es
  induction es with
  | nil => intro m h; simp at h
  | cons e0 rest ih =>
      intro m hmem hnone
      rcases List.mem_cons.mp hmem with heq | hmem'
      · subst heq
        have hnone' : (mfold σ (mstep σ m e) rest).lookup e.guid = none := hnone
        by_cases hl : m.lookup e.guid = none
        · cases hs : σ e.id with
          | none => rfl
          | some j =>
              have hstep : (mstep σ m e).lookup e.guid = some j := by
                unfold mstep
                rw [hl, hs, lookup_cons_self]
              have hj := mfold_lookup_mono σ rest _ hstep
              rw [hj] at hnone'
              exact Option.noConfusion hnone'
        · cases hsome : m.lookup e.guid with
          | none => exact absurd hsome hl
          | some j =>
              have hstep := mstep_lookup_mono σ e hsome
              have hj := mfold_lookup_mono σ rest _ hstep
              rw [hj] at hnone'
              exact Option.noConfusion hnone'
      · exact ih _ hmem' hnone

theorem foldl_fixed {α β : Type} {f : α → β → α} {a : α} :
    ∀ {l : List β}, (∀ b ∈ l, f a b = a) → l.foldl f a = a := by
  intro l
  induction l with
  | nil => intro _; rfl
  | cons b rest ih =>
      intro h
      rw [List.foldl_cons, h b (List.mem_cons_self _ _)]
      exact ih (fun b' hb' => h b' (List.mem_cons_of_mem _ hb'))

theorem mfold_idem (σ : String → Option Nat) (m : List (String × Nat))
    (es : List ZoneElem) :
    mfold σ (mfold σ m es) es = mfold σ m es := by
  apply foldl_fixed
  intro e he
  unfold mstep
  cases hl : (mfold σ m es).lookup e.guid with
  | some j => rfl
  | none =>
      rw [mfold_none_scan_none es m he hl]

theorem mfold_congr {σ1 σ2 : String → Option Nat} (h : ∀ x, σ1 x = σ2 x) :
    ∀ (es : List ZoneElem) (m : List (String × Nat)),
    mfold σ1 m es = mfold σ2 m es := by
  intro es
  induction es with
  | nil => intro m; rfl
  | cons e rest ih =>
      intro m
      have hstep : mstep σ1 m e = mstep σ2 m e := by
        unfold mstep
        rw [h e.id]
      show mfold σ1 (mstep σ1 m e) rest = mfold σ2 (mstep σ2 m e) rest
      rw [hstep, ih]

theorem mfold_append (σ : String → Option Nat) (m : List (String × Nat))
    (es : List ZoneElem) (e : ZoneElem) :
    mfold σ m (es ++ [e]) = mstep σ (mfold σ m es) e := by
  simp [mfold, List.foldl_append]

theorem applyLast_absorb (M : List (String × Nat)) (es : List ZoneElem)
    (i : Nat) (e : ZoneElem) (z : MmsZone) :
    zoneUpd e (applyLast M es i z) = zoneUpd e z := by
  cases h : lastA M es i with
  | some e' =>
      have h1 : applyLast M es i z = zoneUpd e' z := by rw [applyLast, h]
      rw [h1, zoneUpd_absorb]
  | none =>
      have h1 : applyLast M es i z = z := by rw [applyLast, h]
      rw [h1]

theorem applyLast_idem (M : List (String × Nat)) (es : List ZoneElem)
    (i : Nat) (z : MmsZone) :
    applyLast M es i (applyLast M es i z) = applyLast M es i z := by
  cases h : lastA M es i with
  | some e =>
      have h1 : applyLast M es i z = zoneUpd e z := by rw [applyLast, h]
      have h2 : applyLast M es i (zoneUpd e z) = zoneUpd e (zoneUpd e z) := by
        rw [applyLast, h]
      rw [h1, h2, zoneUpd_absorb]
  | none =>
      have h1 : applyLast M es i z = z := by rw [applyLast, h]
      rw [h1, h1]

theorem lastA_append_hit {M : List (String × Nat)} {es : List ZoneElem}
    {e : ZoneElem} {i : Nat} (h : M.lookup e.guid = some i) :
    lastA M (es ++ [e]) i = some e := by
  unfold lastA
  rw [List.filter_append]
  have he : (M.lookup e.guid == some i) = true := by rw [h]; exact beq_self_eq_true _
  simp only [List.filter_cons, List.filter_nil, he, if_true]
  exact List.getLast?_concat _

theorem lastA_append_miss {M : List (String × Nat)} {es : List ZoneElem}
    {e : ZoneElem} {i : Nat} (h : ¬M.lookup e.guid = some i) :
    lastA M (es ++ [e]) i = lastA M es i := by
  unfold lastA
  rw [List.filter_append]
  have he : (M.lookup e.guid == some i) = false := by
    cases hl : M.lookup e.guid with
    | none => rfl
    | some j =>
        rw [hl] at h
        simpa using fun hji => h (by rw [hji])
  simp [List.filter_cons, List.filter_nil, he]

theorem lastA_congr {M M' : List (String × Nat)} {es : List ZoneElem} {i : Nat}
    (h : ∀ e ∈ es, (M'.lookup e.guid == some i) = (M.lookup e.guid == some i)) :
    lastA M' es i = lastA M es i := by
  unfold lastA
  rw [List.filter_congr h]

theorem procZ_lookup_some {c : Ctrl} {e : ZoneElem} {i : Nat}
    (h : c.zoneEntitiesByGuid.lookup e.guid = some i) :
    process_mrad_zone_elem c e =
      { c with zoneEntities := updAt c.zoneEntities i (zoneUpd e) } := by
  unfold process_mrad_zone_elem
  rw [h]

theorem procZ_lookup_none_scan_some {c : Ctrl} {e : ZoneElem} {i : Nat}
    (h : c.zoneEntitiesByGuid.lookup e.guid = none)
    (hs : scanFor c.zoneEntities e.id = some i) :
    process_mrad_zone_elem c e =
      { c with
        zoneEntities := updAt c.zoneEntities i (zoneUpd e),
        zoneEntitiesByGuid := (e.guid, i) :: c.zoneEntitiesByGuid } := by
  unfold process_mrad_zone_elem
  rw [h, hs]

theorem procZ_lookup_none_scan_none {c : Ctrl} {e : ZoneElem}
    (h : c.zoneEntitiesByGuid.lookup e.guid = none)
    (hs : scanFor c.zoneEntities e.id = none) :
    process_mrad_zone_elem c e = c := by
  unfold process_mrad_zone_elem
  rw [h, hs]

theorem mstep_some {σ : String → Option Nat} {M : List (String × Nat)}
    {e : ZoneElem} {i : Nat} (h : M.lookup e.guid = some i) :
    mstep σ M e = M := by
  unfold mstep
  rw [h]

theorem mstep_none_some {σ : String → Option Nat} {M : List (String × Nat)}
    {e : ZoneElem} {i : Nat} (h : M.lookup e.guid = none)
    (hs : σ e.id = some i) :
    mstep σ M e = (e.guid, i) :: M := by
  unfold mstep
  rw [h, hs]

theorem mstep_none_none {σ : String → Option Nat} {M : List (String × Nat)}
    {e : ZoneElem} (h : M.lookup e.guid = none) (hs : σ e.id = none) :
    mstep σ M e = M := by
  unfold mstep
  rw [h, hs]

theorem procZ_frame (c : Ctrl) (e : ZoneElem) :
    (process_mrad_zone_elem c e).mode = c.mode ∧
    (process_mrad_zone_elem c e).is_connected = c.is_connected ∧
    (process_mrad_zone_elem c e).perform_group_volumes = c.perform_group_volumes ∧
    (process_mrad_zone_elem c e).events = c.events ∧
    (process_mrad_zone_elem c e).zoneEntities.map MmsZone.mms_zone_id =
      c.zoneEntities.map MmsZone.mms_zone_id := by
  unfold process_mrad_zone_elem
  cases hl : c.zoneEntitiesByGuid.lookup e.guid with
  | some i =>
      exact ⟨rfl, rfl, rfl, rfl, map_updAt (fun z => zoneUpd_zid e z) _ _⟩
  | none =>
      cases hs : scanFor c.zoneEntities e.id with
      | some i =>
          exact ⟨rfl, rfl, rfl, rfl, map_updAt (fun z => zoneUpd_zid e z) _ _⟩
      | none => exact ⟨rfl, rfl, rfl, rfl, rfl⟩

theorem procZones_frame (es : List ZoneElem) : ∀ (c : Ctrl),
    (process_mrad_zone_response c es).mode = c.mode ∧
    (process_mrad_zone_response c es).is_connected = c.is_connected ∧
    (process_mrad_zone_response c es).perform_group_volumes =
      c.perform_group_volumes ∧
    (process_mrad_zone_response c es).events = c.events ∧
    (process_mrad_zone_response c es).zoneEntities.map MmsZone.mms_zone_id =
      c.zoneEntities.map MmsZone.mms_zone_id := by
  induction es with
  | nil => intro c; exact ⟨rfl, rfl, rfl, rfl, rfl⟩
  | cons e rest ih =>
      intro c
      have h1 := procZ_frame c e
      have h2 := ih (process_mrad_zone_elem c e)
      exact ⟨h2.1.trans h1.1, h2.2.1.trans h1.2.1, h2.2.2.1.trans h1.2.2.1,
        h2.2.2.2.1.trans h1.2.2.2.1, h2.2.2.2.2.trans h1.2.2.2.2⟩

theorem applyLast_ext {M : List (String × Nat)} {es1 es2 : List ZoneElem}
    {i : Nat} (h : lastA M es1 i = lastA M es2 i) (z : MmsZone) :
    applyLast M es1 i z = applyLast M es2 i z := by
  rw [applyLast, applyLast, h]

theorem map_applyLast_ext {M M' : List (String × Nat)} {es1 es2 : List ZoneElem}
    {i : Nat} (h : lastA M' es1 i = lastA M es2 i) (o : Option MmsZone) :
    o.map (applyLast M' es1 i) = o.map (applyLast M es2 i) := by
  cases o with
  | none => rfl
  | some z =>
      simp only [Option.map_some']
      rw [applyLast, applyLast, h]

theorem map_zoneUpd_applyLast {M M' : List (String × Nat)}
    {es es' : List ZoneElem} {i : Nat} (e : ZoneElem)
    (h : lastA M' es' i = some e) (o : Option MmsZone) :
    (o.map (applyLast M es i)).map (zoneUpd e) = o.map (applyLast M' es' i) := by
  cases o with
  | none => rfl
  | some z =>
      simp only [Option.map_some']
      rw [applyLast_absorb]
      have h2 : applyLast M' es' i z = zoneUpd e z := by rw [applyLast, h]
      rw [h2]

theorem Ctrl_eq {a b : Ctrl} (h1 : a.mode = b.mode)
    (h2 : a.is_connected = b.is_connected)
    (h3 : a.perform_group_volumes = b.perform_group_volumes)
    (h4 : a.zoneEntities = b.zoneEntities)
    (h5 : a.zoneEntitiesByGuid = b.zoneEntitiesByGuid)
    (h6 : a.events = b.events) : a = b := by
  cases a
  cases b
  simp_all

theorem procZones_spec (c : Ctrl) : ∀ (es : List ZoneElem),
    (process_mrad_zone_response c es).zoneEntitiesByGuid =
      mfold (scanFor c.zoneEntities) c.zoneEntitiesByGuid es ∧
    ∀ i, ((process_mrad_zone_response c es).zoneEntities)[i]? =
      (c.zoneEntities[i]?).map
        (applyLast (mfold (scanFor c.zoneEntities) c.zoneEntitiesByGuid es) es i) := by
  intro es
  induction es using List.reverseRecOn with
  | nil =>
      refine ⟨rfl, ?_⟩
      intro i
      show c.zoneEntities[i]? = (c.zoneEntities[i]?).map
        (applyLast (mfold (scanFor c.zoneEntities) c.zoneEntitiesByGuid []) [] i)
      cases c.zoneEntities[i]? <;> rfl
  | append_singleton es e ih =>
      obtain ⟨ihm, ihz⟩ := ih
      have hre : process_mrad_zone_response c (es ++ [e]) =
          process_mrad_zone_elem (process_mrad_zone_response c es) e := by
        rw [process_mrad_zone_response, List.foldl_append]
        rfl
      have hmap : (process_mrad_zone_response c es).zoneEntities.map
            MmsZone.mms_zone_id = c.zoneEntities.map MmsZone.mms_zone_id :=
        (procZones_frame es c).2.2.2.2
      have hscan : scanFor (process_mrad_zone_response c es).zoneEntities e.id =
          scanFor c.zoneEntities e.id := scanFor_congr hmap
      have hmf : mfold (scanFor c.zoneEntities) c.zoneEntitiesByGuid (es ++ [e]) =
          mstep (scanFor c.zoneEntities)
            (mfold (scanFor c.zoneEntities) c.zoneEntitiesByGuid es) e :=
        mfold_append _ _ _ _
      rw [hre]
      cases hL : (mfold (scanFor c.zoneEntities) c.zoneEntitiesByGuid es).lookup
          e.guid with
      | some i =>
          have hp := @procZ_lookup_some (process_mrad_zone_response c es)
            e i (by rw [ihm]; exact hL)
          rw [hp]
          constructor
          · show (process_mrad_zone_response c es).zoneEntitiesByGuid = _
            rw [hmf, mstep_some hL]
            exact ihm
          · intro j
            show (updAt (process_mrad_zone_response c es).zoneEntities i
              (zoneUpd e))[j]? = _
            rw [hmf, mstep_some hL, getElem?_updAt]
            by_cases hij : i = j
            · subst hij
              rw [if_pos rfl, ihz i]
              exact map_zoneUpd_applyLast e (lastA_append_hit hL) _
            · rw [if_neg hij, ihz j]
              refine map_applyLast_ext ?_ _
              refine (lastA_append_miss ?_).symm
              rw [hL]
              exact fun hh => hij (Option.some.inj hh)
      | none =>
          have hls1 : (process_mrad_zone_response c es).zoneEntitiesByGuid.lookup
              e.guid = none := by rw [ihm]; exact hL
          cases hS : scanFor c.zoneEntities e.id with
          | some i =>
              have hp := procZ_lookup_none_scan_some hls1
                (by rw [hscan]; exact hS)
              rw [hp]
              have hm2 : mfold (scanFor c.zoneEntities) c.zoneEntitiesByGuid
                  (es ++ [e]) =
                  (e.guid, i) ::
                    mfold (scanFor c.zoneEntities) c.zoneEntitiesByGuid es := by
                rw [hmf, mstep_none_some hL hS]
              constructor
              · show (e.guid, i) ::
                    (process_mrad_zone_response c es).zoneEntitiesByGuid = _
                rw [hm2, ihm]
              · intro j
                show (updAt (process_mrad_zone_response c es).zoneEntities i
                  (zoneUpd e))[j]? = _
                rw [hm2, getElem?_updAt]
                by_cases hij : i = j
                · subst hij
                  rw [if_pos rfl, ihz i]
                  refine map_zoneUpd_applyLast e (lastA_append_hit ?_) _
                  exact lookup_cons_self _ _ _
                · rw [if_neg hij, ihz j]
                  refine map_applyLast_ext ?_ _
                  have hmiss : ¬((e.guid, i) ::
                      mfold (scanFor c.zoneEntities) c.zoneEntitiesByGuid
                        es).lookup e.guid = some j := by
                    rw [lookup_cons_self]
                    exact fun hh => hij (Option.some.inj hh)
                  have h1 := @lastA_append_miss
                    ((e.guid, i) ::
                      mfold (scanFor c.zoneEntities) c.zoneEntitiesByGuid es)
                    es e j hmiss
                  have h2 : lastA ((e.guid, i) ::
                      mfold (scanFor c.zoneEntities) c.zoneEntitiesByGuid es)
                      es j =
                      lastA (mfold (scanFor c.zoneEntities) c.zoneEntitiesByGuid
                        es) es j := by
                    apply lastA_congr
                    intro e' he'
                    by_cases hg : e'.guid = e.guid
                    · rw [hg, lookup_cons_self, hL]
                      have hb1 : ((some i == some j) = false) := by
                        simp [hij]
                      rw [hb1]
                      rfl
                    · rw [lookup_cons_ne hg]
                  exact (h1.trans h2).symm
          | none =>
              have hp := procZ_lookup_none_scan_none hls1
                (by rw [hscan]; exact hS)
              rw [hp]
              have hm2 : mfold (scanFor c.zoneEntities) c.zoneEntitiesByGuid
                  (es ++ [e]) =
                  mfold (scanFor c.zoneEntities) c.zoneEntitiesByGuid es := by
                rw [hmf, mstep_none_none hL hS]
              constructor
              · rw [hm2]; exact ihm
              · intro j
                rw [hm2, ihz j]
                refine map_applyLast_ext ?_ _
                refine (lastA_append_miss ?_).symm
                rw [hL]
                exact fun hh => Option.noConfusion hh

/-- Claim C5: processing the same zone snapshot twice in succession
leaves exactly the state produced by processing it once — placeholder
names, bound source ids, GUID bindings and group-membership lists are
all identical, the second pass resolving every bound zone through its
GUID binding without further state change. -/
theorem claim_C5_zone_snapshot_idempotent (c : Ctrl) (es : List ZoneElem) :
    process_mrad_zone_response (process_mrad_zone_response c es) es =
      process_mrad_zone_response c es := by
  obtain ⟨h1m, h1z⟩ := procZones_spec c es
  obtain ⟨h2m, h2z⟩ := procZones_spec (process_mrad_zone_response c es) es
  have hframe1 := procZones_frame es c
  have hframe2 := procZones_frame es (process_mrad_zone_response c es)
  have hmap : (process_mrad_zone_response c es).zoneEntities.map
      MmsZone.mms_zone_id = c.zoneEntities.map MmsZone.mms_zone_id :=
    hframe1.2.2.2.2
  have hσ : ∀ x, scanFor (process_mrad_zone_response c es).zoneEntities x =
      scanFor c.zoneEntities x := fun x => scanFor_congr hmap
  have hM2 : mfold (scanFor (process_mrad_zone_response c es).zoneEntities)
      (process_mrad_zone_response c es).zoneEntitiesByGuid es =
      mfold (scanFor c.zoneEntities) c.zoneEntitiesByGuid es := by
    rw [mfold_congr hσ, h1m]
    exact mfold_idem _ _ _
  apply Ctrl_eq
  · exact hframe2.1
  · exact hframe2.2.1
  · exact hframe2.2.2.1
  · apply List.ext_getElem?
    intro j
    rw [h2z j, hM2, h1z j]
    cases hz : c.zoneEntities[j]? with
    | none => rfl
    | some z0 =>
        simp only [Option.map_some']
        rw [applyLast_idem]
  · rw [h2m, hM2, h1m]
  · exact hframe2.2.2.2.1

end Autonomic
